import Mathlib

/-!
# dxvk pipeline manager: key hashing, key equality and the lookup-or-create protocol

A shallow embedding of `src/dxvk/dxvk_pipemanager.cpp`, followed by one of
`src/dxvk/rtx_render/rtx_antilag.{h,cpp}`.

* A shader handle `Rc<DxvkShader>` is the address of the shader object it shares
  (`0` is `nullptr`); two handles are `==` when the addresses are equal.
* What the key functors call but the translation unit does not define
  (`std::hash<DxvkShader*>`, `DxvkShader::getHash`, `DxvkHashState`) is a parameter,
  `Env`.
* `std::unordered_map` is the list of its nodes in allocation order.  Nodes are never
  freed or moved, so the pointer `&node->second` the manager hands out is the node's
  position in that list.
* The operations of the manager are first taken to run alone.  The section on threads
  cuts a create call into steps around `m_mutex` and lets a schedule interleave them.
* An `RtxAntiLag` method returns the object afterwards and the driver calls it made.
-/

namespace dxvk

/-! ## Shader handles and the environment of the key functors -/

/-- Modelled from the spec: `Rc<DxvkShader>` (util/rc is not among the sources), a shared
handle to a shader object with identity-comparable equality.  `ptr` is the address of
the shader object, `0` for `nullptr`. -/
structure Rc where
  ptr : Nat
deriving DecidableEq, Repr

/-- The handle that holds no object: `nullptr`. -/
def Rc.null : Rc := ⟨0⟩

/-- Comparison `Rc::operator ==`: the two handles hold the same object. -/
def Rc.eq (a b : Rc) : Bool := decide (a.ptr = b.ptr)

/-- Comparison `shader == nullptr`. -/
def Rc.isNull (a : Rc) : Bool := decide (a.ptr = 0)

/-- Functions the key functors call and this translation unit does not define. -/
structure Env where
  /-- The functor `std::hash<DxvkShader*>`, applied to an address. -/
  stdHash : Nat → Nat
  /-- The method `DxvkShader::getHash()` of the shader object at an address. -/
  getHash : Nat → Nat
  /-- A default-constructed `DxvkHashState`. -/
  hashInit : Nat
  /-- The method `DxvkHashState::add`: the state after adding a hash. -/
  hashAdd : Nat → Nat → Nat
  /-- The conversion `DxvkHashState::operator size_t`. -/
  hashValue : Nat → Nat

/-! ## Pipeline keys -/

/-- Shaders of a compute pipeline: the key of the compute mapping. -/
structure DxvkComputePipelineShaders where
  cs : Rc
deriving DecidableEq, Repr

/-- Shaders of a graphics pipeline: the key of the graphics mapping. -/
structure DxvkGraphicsPipelineShaders where
  vs : Rc
  tcs : Rc
  tes : Rc
  gs : Rc
  fs : Rc
deriving DecidableEq, Repr

/-! ## `DxvkPipelineKeyHash` -/

/-- Source `DxvkPipelineKeyHash::getShaderHash`:
`shader != nullptr ? shader->getHash() : 0`. -/
def DxvkPipelineKeyHash.getShaderHash (E : Env) (shader : Rc) : Nat :=
  if shader.ptr ≠ 0 then E.getHash shader.ptr else 0

/-- Source `DxvkPipelineKeyHash::operator ()` on a compute key:
`std::hash<DxvkShader*> hash; return hash(key.cs.ptr());`. -/
def DxvkPipelineKeyHash.applyCompute (E : Env) (key : DxvkComputePipelineShaders) : Nat :=
  E.stdHash key.cs.ptr

/-- Source `DxvkPipelineKeyHash::operator ()` on a graphics key: five `state.add`
calls on a fresh `DxvkHashState`, then the conversion to `size_t`. -/
def DxvkPipelineKeyHash.applyGraphics (E : Env) (key : DxvkGraphicsPipelineShaders) : Nat :=
  let state := E.hashInit
  let state := E.hashAdd state (DxvkPipelineKeyHash.getShaderHash E key.vs)
  let state := E.hashAdd state (DxvkPipelineKeyHash.getShaderHash E key.tcs)
  let state := E.hashAdd state (DxvkPipelineKeyHash.getShaderHash E key.tes)
  let state := E.hashAdd state (DxvkPipelineKeyHash.getShaderHash E key.gs)
  let state := E.hashAdd state (DxvkPipelineKeyHash.getShaderHash E key.fs)
  E.hashValue state

/-! ## `DxvkPipelineKeyEq` -/

/-- Source `DxvkPipelineKeyEq::operator ()` on compute keys: `a.cs == b.cs`. -/
def DxvkPipelineKeyEq.applyCompute (a b : DxvkComputePipelineShaders) : Bool :=
  a.cs.eq b.cs

/-- Source `DxvkPipelineKeyEq::operator ()` on graphics keys. -/
def DxvkPipelineKeyEq.applyGraphics (a b : DxvkGraphicsPipelineShaders) : Bool :=
  a.vs.eq b.vs && a.tcs.eq b.tcs
    && a.tes.eq b.tes && a.gs.eq b.gs
    && a.fs.eq b.fs

/-! ## The node list standing for `std::unordered_map` -/

/-- Lookup `std::unordered_map::find`: the position of the first node whose key has the
hash code of `k` and is equal to `k` under the key-equality functor, `none` for
`end()`. -/
def umapFind {K V : Type} (hash : K → Nat) (keyEq : K → K → Bool) :
    List (K × V) → K → Option Nat
  | [], _ => none
  | e :: es, k =>
    if hash e.1 = hash k ∧ keyEq e.1 k = true then some 0
    else (umapFind hash keyEq es k).map (· + 1)

/-! ## Collaborators of the manager -/

/-- Modelled from the spec: `DxvkStateCache` (dxvk_state_cache.cpp is not among the
sources), the background state cache.  It consumes shader-registration notifications
and reports whether it is compiling; the model keeps the notifications it received,
oldest first, and its busy flag. -/
structure DxvkStateCache where
  registered : List Rc
  compiling : Bool
deriving DecidableEq, Repr

/-- Modelled from the spec: `DxvkStateCache::registerShader`, which consumes one
shader-registration notification. -/
def DxvkStateCache.registerShader (c : DxvkStateCache) (shader : Rc) : DxvkStateCache :=
  { c with registered := c.registered ++ [shader] }

/-- Modelled from the spec: `DxvkStateCache::isCompilingShaders`, whether the cache is
performing asynchronous compilation work. -/
def DxvkStateCache.isCompilingShaders (c : DxvkStateCache) : Bool := c.compiling

/-- Modelled from the spec: a `DxvkComputePipeline` object (dxvk_compute.cpp is not
among the sources), constructed from the manager and the key and otherwise opaque. -/
structure DxvkComputePipeline where
  m_shaders : DxvkComputePipelineShaders
deriving DecidableEq, Repr

/-- Modelled from the spec: a `DxvkGraphicsPipeline` object (dxvk_graphics.cpp is not
among the sources), constructed from the manager and the key and otherwise opaque. -/
structure DxvkGraphicsPipeline where
  m_shaders : DxvkGraphicsPipelineShaders
deriving DecidableEq, Repr

/-! ## `DxvkPipelineManager` -/

/-- The members of `DxvkPipelineManager` its operations read or write.  `m_stateCache`
is `none` when the handle is `nullptr`. -/
structure DxvkPipelineManager where
  m_stateCache : Option DxvkStateCache
  m_numComputePipelines : Nat
  m_numGraphicsPipelines : Nat
  m_computePipelines : List (DxvkComputePipelineShaders × DxvkComputePipeline)
  m_graphicsPipelines : List (DxvkGraphicsPipelineShaders × DxvkGraphicsPipeline)
deriving DecidableEq, Repr

/-- The result of `getPipelineCount`. -/
structure DxvkPipelineCount where
  numComputePipelines : Nat
  numGraphicsPipelines : Nat
deriving DecidableEq, Repr

/-- Source `DxvkPipelineManager::DxvkPipelineManager`.  `useStateCache` is the value of
the environment variable `DXVK_STATE_CACHE` (empty when unset), `enableStateCache` is
`device->config().enableStateCache`.  The mappings are default-constructed and the
counters start at zero. -/
def DxvkPipelineManager.create (useStateCache : String) (enableStateCache : Bool) :
    DxvkPipelineManager :=
  { m_stateCache :=
      if useStateCache ≠ "0" ∧ enableStateCache = true then
        some { registered := [], compiling := false }
      else none
    m_numComputePipelines := 0
    m_numGraphicsPipelines := 0
    m_computePipelines := []
    m_graphicsPipelines := [] }

/-- Modelled from the spec: the constructor `DxvkComputePipeline(pipeMgr, shaders)`.
The object reports its creation back to the manager: the compute counter goes up by
one, once per constructed object. -/
def DxvkComputePipeline.construct (pipeMgr : DxvkPipelineManager)
    (shaders : DxvkComputePipelineShaders) : DxvkComputePipeline × DxvkPipelineManager :=
  ({ m_shaders := shaders },
   { pipeMgr with m_numComputePipelines := pipeMgr.m_numComputePipelines + 1 })

/-- Modelled from the spec: the constructor `DxvkGraphicsPipeline(pipeMgr, shaders)`.
The object reports its creation back to the manager: the graphics counter goes up by
one, once per constructed object. -/
def DxvkGraphicsPipeline.construct (pipeMgr : DxvkPipelineManager)
    (shaders : DxvkGraphicsPipelineShaders) : DxvkGraphicsPipeline × DxvkPipelineManager :=
  ({ m_shaders := shaders },
   { pipeMgr with m_numGraphicsPipelines := pipeMgr.m_numGraphicsPipelines + 1 })

/-- Source `DxvkPipelineManager::createComputePipeline`.  The result is the returned
pointer (`none` for `nullptr`, else the position of the node that holds the pipeline)
and the manager afterwards. -/
def DxvkPipelineManager.createComputePipeline (E : Env) (m : DxvkPipelineManager)
    (shaders : DxvkComputePipelineShaders) : Option Nat × DxvkPipelineManager :=
  if shaders.cs.isNull then (none, m)
  else
    match umapFind (DxvkPipelineKeyHash.applyCompute E) DxvkPipelineKeyEq.applyCompute
        m.m_computePipelines shaders with
    | some pair => (some pair, m)
    | none =>
      let (obj, m1) := DxvkComputePipeline.construct m shaders
      (some m1.m_computePipelines.length,
       { m1 with m_computePipelines := m1.m_computePipelines ++ [(shaders, obj)] })

/-- Source `DxvkPipelineManager::createGraphicsPipeline`.  The result is the returned
pointer (`none` for `nullptr`, else the position of the node that holds the pipeline)
and the manager afterwards. -/
def DxvkPipelineManager.createGraphicsPipeline (E : Env) (m : DxvkPipelineManager)
    (shaders : DxvkGraphicsPipelineShaders) : Option Nat × DxvkPipelineManager :=
  if shaders.vs.isNull then (none, m)
  else
    match umapFind (DxvkPipelineKeyHash.applyGraphics E) DxvkPipelineKeyEq.applyGraphics
        m.m_graphicsPipelines shaders with
    | some pair => (some pair, m)
    | none =>
      let (obj, m1) := DxvkGraphicsPipeline.construct m shaders
      (some m1.m_graphicsPipelines.length,
       { m1 with m_graphicsPipelines := m1.m_graphicsPipelines ++ [(shaders, obj)] })

/-- Source `DxvkPipelineManager::registerShader`: forwards to the state cache when
`m_stateCache != nullptr`. -/
def DxvkPipelineManager.registerShader (m : DxvkPipelineManager) (shader : Rc) :
    DxvkPipelineManager :=
  match m.m_stateCache with
  | some cache => { m with m_stateCache := some (cache.registerShader shader) }
  | none => m

/-- Source `DxvkPipelineManager::getPipelineCount`: loads the two counters. -/
def DxvkPipelineManager.getPipelineCount (m : DxvkPipelineManager) : DxvkPipelineCount :=
  { numComputePipelines := m.m_numComputePipelines
    numGraphicsPipelines := m.m_numGraphicsPipelines }

/-- Source `DxvkPipelineManager::isCompilingShaders`:
`m_stateCache != nullptr && m_stateCache->isCompilingShaders()`. -/
def DxvkPipelineManager.isCompilingShaders (m : DxvkPipelineManager) : Bool :=
  match m.m_stateCache with
  | some cache => cache.isCompilingShaders
  | none => false

/-- One call of a public operation of the manager. -/
inductive Op where
  | createCompute (shaders : DxvkComputePipelineShaders)
  | createGraphics (shaders : DxvkGraphicsPipelineShaders)
  | registerShader (shader : Rc)
  | getPipelineCount
  | isCompilingShaders
deriving DecidableEq, Repr

/-- The manager after one operation; the two queries are `const`. -/
def DxvkPipelineManager.step (E : Env) (m : DxvkPipelineManager) : Op → DxvkPipelineManager
  | .createCompute shaders => (m.createComputePipeline E shaders).2
  | .createGraphics shaders => (m.createGraphicsPipeline E shaders).2
  | .registerShader shader => m.registerShader shader
  | .getPipelineCount => m
  | .isCompilingShaders => m

/-- The manager after a sequence of operations, first to last. -/
def DxvkPipelineManager.run (E : Env) (m : DxvkPipelineManager) (ops : List Op) :
    DxvkPipelineManager :=
  ops.foldl (DxvkPipelineManager.step E) m

/-- The stages of a graphics key, in the order of its fields. -/
inductive Stage where
  | vs | tcs | tes | gs | fs
deriving DecidableEq, Repr

/-- The graphics key `base` with the slot of one stage replaced by `shader`. -/
def DxvkGraphicsPipelineShaders.withStage (base : DxvkGraphicsPipelineShaders)
    (stage : Stage) (shader : Rc) : DxvkGraphicsPipelineShaders :=
  match stage with
  | .vs => { base with vs := shader }
  | .tcs => { base with tcs := shader }
  | .tes => { base with tes := shader }
  | .gs => { base with gs := shader }
  | .fs => { base with fs := shader }

/-- An environment for evaluating the definitions on examples: pointers hash to their
address, the shader at address `p` has content hash `7 + p % 4096` (so the objects at
4096 and 8192 share the content hash 7), and the accumulator mixes 64-bit words. -/
def exampleEnv : Env :=
  { stdHash := fun p => p
    getHash := fun p => 7 + p % 4096
    hashInit := 0
    hashAdd := fun v h => (v ^^^ (h + 0x9e3779b9 + (v <<< 6) + (v >>> 2))) % 2 ^ 64
    hashValue := fun v => v }

/-- A manager without state cache, as constructed with `DXVK_STATE_CACHE=0`. -/
def exampleManager : DxvkPipelineManager := DxvkPipelineManager.create "0" true

/-- The compute keys that the create calls of a sequence of operations request. -/
def computeRequests (ops : List Op) : List DxvkComputePipelineShaders :=
  ops.filterMap fun op =>
    match op with
    | .createCompute shaders => some shaders
    | _ => none

/-- The graphics keys that the create calls of a sequence of operations request. -/
def graphicsRequests (ops : List Op) : List DxvkGraphicsPipelineShaders :=
  ops.filterMap fun op =>
    match op with
    | .createGraphics shaders => some shaders
    | _ => none

/-- The content hash of a slot as the spec words it: the shader's content hash, zero
for an absent slot. -/
def specSlotHash (E : Env) (shader : Rc) : Nat :=
  match shader.ptr with
  | 0 => 0
  | p + 1 => E.getHash (p + 1)

/-- The graphics hash as the spec words it: starting from a fresh accumulator, add the
content hashes of vertex, tess-control, tess-eval, geometry and fragment, in that
order. -/
def specGraphicsHash (E : Env) (key : DxvkGraphicsPipelineShaders) : Nat :=
  E.hashValue
    (([key.vs, key.tcs, key.tes, key.gs, key.fs].map (specSlotHash E)).foldl
      E.hashAdd E.hashInit)

/-- Modelled from the spec: `env::getEnvVar` (util/util_env is not among the sources),
which reads the configuration toggle: the value of the variable, and the empty string
when the variable is unset, so that the default is "enabled". -/
def env.getEnvVar (value : Option String) : String :=
  match value with
  | some v => v
  | none => ""

/-! ## `RtxAntiLag` (`src/dxvk/rtx_render/rtx_antilag.{h,cpp}`) -/

/-- The option enum `AntiLagMode` of `rtx_options.h`, with the three values the switch
of `updateMode` lists. -/
inductive AntiLagMode where
  | Off
  | On
  | DriverControl
deriving DecidableEq, Repr

/-- The Vulkan enum `VkAntiLagModeAMD`. -/
inductive VkAntiLagModeAMD where
  | VK_ANTI_LAG_MODE_DRIVER_CONTROL_AMD
  | VK_ANTI_LAG_MODE_ON_AMD
  | VK_ANTI_LAG_MODE_OFF_AMD
deriving DecidableEq, Repr

/-- The Vulkan enum `VkAntiLagStageAMD`. -/
inductive VkAntiLagStageAMD where
  | VK_ANTI_LAG_STAGE_INPUT_AMD
  | VK_ANTI_LAG_STAGE_PRESENT_AMD
deriving DecidableEq, Repr

/-- The fields of `VkAntiLagPresentationInfoAMD` the code sets, `sType` apart. -/
structure VkAntiLagPresentationInfoAMD where
  stage : VkAntiLagStageAMD
  frameIndex : Nat
deriving DecidableEq, Repr

/-- The fields of `VkAntiLagDataAMD` the code sets, `sType` apart;
`pPresentationInfo` is `none` for `nullptr`. -/
structure VkAntiLagDataAMD where
  mode : VkAntiLagModeAMD
  maxFPS : Nat
  pPresentationInfo : Option VkAntiLagPresentationInfoAMD
deriving DecidableEq, Repr

/-- An `RtxAntiLag` object: its four members and, of its device, whether
`extensions().amdAntiLag` is set.  `m_vkAntiLagUpdateAMD` is the address of the driver
function, `0` for `nullptr`. -/
structure RtxAntiLag where
  amdAntiLag : Bool
  m_enabled : Bool
  m_initialized : Bool
  m_currentAntiLagMode : AntiLagMode
  m_vkAntiLagUpdateAMD : Nat
deriving DecidableEq, Repr

/-- Inline `RtxAntiLag::antiLagEnabled`. -/
def RtxAntiLag.antiLagEnabled (a : RtxAntiLag) : Bool := a.m_enabled

/-- Inline `RtxAntiLag::antiLagInitialized`. -/
def RtxAntiLag.antiLagInitialized (a : RtxAntiLag) : Bool := a.m_initialized

/-- Source `RtxAntiLag::updateMode`.  `newMode` is what `RtxOptions::antiLagMode()`
returns at the call.  The result is the object afterwards and the calls of
`m_vkAntiLagUpdateAMD` the invocation made, in order. -/
def RtxAntiLag.updateMode (a : RtxAntiLag) (newMode : AntiLagMode) :
    RtxAntiLag × List VkAntiLagDataAMD :=
  if !a.antiLagInitialized || a.m_vkAntiLagUpdateAMD == 0 then (a, [])
  else if newMode = a.m_currentAntiLagMode then (a, [])
  else
    let mode :=
      match newMode with
      | .Off => VkAntiLagModeAMD.VK_ANTI_LAG_MODE_OFF_AMD
      | .On => VkAntiLagModeAMD.VK_ANTI_LAG_MODE_ON_AMD
      | .DriverControl => VkAntiLagModeAMD.VK_ANTI_LAG_MODE_DRIVER_CONTROL_AMD
    let antiLagData : VkAntiLagDataAMD :=
      { mode := mode, maxFPS := 0, pPresentationInfo := none }
    ({ a with m_currentAntiLagMode := newMode }, [antiLagData])

/-- Source `RtxAntiLag::RtxAntiLag`.  `isAntiLagEnabled` and `antiLagMode` are what
`RtxOptions::isAntiLagEnabled()` and `RtxOptions::antiLagMode()` return during
construction, `amdAntiLag` is `device->extensions().amdAntiLag`, `sym` is what
`vkd->sym("vkAntiLagUpdateAMD")` returns.  The members start from their in-class
initialisers.  The result is the object and the driver calls made on the way. -/
def RtxAntiLag.construct (isAntiLagEnabled : Bool) (antiLagMode : AntiLagMode)
    (amdAntiLag : Bool) (sym : Nat) : RtxAntiLag × List VkAntiLagDataAMD :=
  let a0 : RtxAntiLag :=
    { amdAntiLag := amdAntiLag
      m_enabled := false
      m_initialized := false
      m_currentAntiLagMode := AntiLagMode.Off
      m_vkAntiLagUpdateAMD := 0 }
  let a1 := { a0 with m_enabled := isAntiLagEnabled }
  if !a1.antiLagEnabled then (a1, [])
  else if !a1.amdAntiLag then (a1, [])
  else
    let a2 := { a1 with m_vkAntiLagUpdateAMD := sym }
    if a2.m_vkAntiLagUpdateAMD == 0 then (a2, [])
    else
      let (a3, calls) := a2.updateMode antiLagMode
      ({ a3 with m_initialized := true }, calls)

/-- Source `RtxAntiLag::updateBeforeInput`, a `const` method: the object, returned as
it is, and the driver calls made. -/
def RtxAntiLag.updateBeforeInput (a : RtxAntiLag) (_frameId : Nat) :
    RtxAntiLag × List VkAntiLagDataAMD :=
  if !a.antiLagInitialized || a.m_vkAntiLagUpdateAMD == 0 then (a, [])
  else if a.m_currentAntiLagMode = AntiLagMode.Off then (a, [])
  else
    let antiLagData : VkAntiLagDataAMD :=
      { mode := VkAntiLagModeAMD.VK_ANTI_LAG_MODE_ON_AMD
        maxFPS := 0
        pPresentationInfo := none }
    (a, [antiLagData])

/-- Source `RtxAntiLag::updateBeforePresent`, a `const` method: the object, returned as
it is, and the driver calls made. -/
def RtxAntiLag.updateBeforePresent (a : RtxAntiLag) (frameId : Nat) :
    RtxAntiLag × List VkAntiLagDataAMD :=
  if !a.antiLagInitialized || a.m_vkAntiLagUpdateAMD == 0 then (a, [])
  else if a.m_currentAntiLagMode = AntiLagMode.Off then (a, [])
  else
    let presentInfo : VkAntiLagPresentationInfoAMD :=
      { stage := VkAntiLagStageAMD.VK_ANTI_LAG_STAGE_PRESENT_AMD
        frameIndex := frameId }
    let antiLagData : VkAntiLagDataAMD :=
      { mode := VkAntiLagModeAMD.VK_ANTI_LAG_MODE_ON_AMD
        maxFPS := 0
        pPresentationInfo := some presentInfo }
    (a, [antiLagData])

/-- One call of a method of a constructed `RtxAntiLag`; `updateMode` carries the mode
the options hold at the call. -/
inductive AntiLagOp where
  | updateMode (newMode : AntiLagMode)
  | updateBeforeInput (frameId : Nat)
  | updateBeforePresent (frameId : Nat)
deriving DecidableEq, Repr

/-- The object and the driver calls of one method call. -/
def RtxAntiLag.step (a : RtxAntiLag) : AntiLagOp → RtxAntiLag × List VkAntiLagDataAMD
  | .updateMode newMode => a.updateMode newMode
  | .updateBeforeInput frameId => a.updateBeforeInput frameId
  | .updateBeforePresent frameId => a.updateBeforePresent frameId

/-- The object after a sequence of method calls, first to last. -/
def RtxAntiLag.run (a : RtxAntiLag) (ops : List AntiLagOp) : RtxAntiLag :=
  ops.foldl (fun s op => (s.step op).1) a

/-- The driver mode that matches an option mode, as the claim on `updateMode` lists
them: Off to OFF, On to ON, DriverControl to DRIVER_CONTROL. -/
def specDriverMode : AntiLagMode → VkAntiLagModeAMD
  | .Off => VkAntiLagModeAMD.VK_ANTI_LAG_MODE_OFF_AMD
  | .On => VkAntiLagModeAMD.VK_ANTI_LAG_MODE_ON_AMD
  | .DriverControl => VkAntiLagModeAMD.VK_ANTI_LAG_MODE_DRIVER_CONTROL_AMD

/-- A manager whose state cache reports that it is compiling. -/
def exampleBusyManager : DxvkPipelineManager :=
  { exampleManager with
    m_stateCache := some { registered := [⟨4096⟩], compiling := true } }

/-! ## Threads calling a create operation

The create operations take `m_mutex` with a `std::lock_guard` after the null check and
hold it until they return.  A thread's call is cut into the steps below; a schedule
picks, step by step, the thread that runs next. -/

/-- The key of a create call of either kind. -/
inductive PipelineKey where
  | compute (shaders : DxvkComputePipelineShaders)
  | graphics (shaders : DxvkGraphicsPipelineShaders)
deriving DecidableEq, Repr

/-- The null check at the head of the create operation of the key's kind. -/
def PipelineKey.mandatoryAbsent : PipelineKey → Bool
  | .compute shaders => shaders.cs.isNull
  | .graphics shaders => shaders.vs.isNull

/-- The `find` call of the create operation of the key's kind. -/
def DxvkPipelineManager.findPipeline (E : Env) (m : DxvkPipelineManager) :
    PipelineKey → Option Nat
  | .compute shaders =>
    umapFind (DxvkPipelineKeyHash.applyCompute E) DxvkPipelineKeyEq.applyCompute
      m.m_computePipelines shaders
  | .graphics shaders =>
    umapFind (DxvkPipelineKeyHash.applyGraphics E) DxvkPipelineKeyEq.applyGraphics
      m.m_graphicsPipelines shaders

/-- The `emplace` call of the create operation of the key's kind: the pointer to the
new pipeline object and the manager afterwards. -/
def DxvkPipelineManager.emplacePipeline (m : DxvkPipelineManager) :
    PipelineKey → Nat × DxvkPipelineManager
  | .compute shaders =>
    let (obj, m1) := DxvkComputePipeline.construct m shaders
    (m1.m_computePipelines.length,
     { m1 with m_computePipelines := m1.m_computePipelines ++ [(shaders, obj)] })
  | .graphics shaders =>
    let (obj, m1) := DxvkGraphicsPipeline.construct m shaders
    (m1.m_graphicsPipelines.length,
     { m1 with m_graphicsPipelines := m1.m_graphicsPipelines ++ [(shaders, obj)] })

/-- The create operation of the key's kind, run by one thread alone. -/
def DxvkPipelineManager.createPipeline (E : Env) (m : DxvkPipelineManager) :
    PipelineKey → Option Nat × DxvkPipelineManager
  | .compute shaders => m.createComputePipeline E shaders
  | .graphics shaders => m.createGraphicsPipeline E shaders

/-- Where a thread stands in its create call. -/
inductive ThreadPc where
  /-- Before the null check. -/
  | start
  /-- The null check passed; the `lock_guard` is about to take `m_mutex`. -/
  | waiting
  /-- Holds `m_mutex`, before `find`. -/
  | locked
  /-- Holds `m_mutex`; `find` returned `end()`. -/
  | missed
  /-- Holds `m_mutex`; the return value is computed, the `lock_guard` not yet
  destroyed. -/
  | leaving (r : Option Nat)
  /-- Returned `r`. -/
  | done (r : Option Nat)
deriving DecidableEq, Repr

/-- The manager shared by the threads, the owner of `m_mutex` if it is taken, where
each thread stands, and the threads that ran a pipeline constructor, oldest first. -/
structure Threads where
  mgr : DxvkPipelineManager
  m_mutex : Option Nat
  pc : Nat → ThreadPc
  constructed : List Nat

/-- Every thread is about to call the create operation on manager `m`. -/
def Threads.init (m : DxvkPipelineManager) : Threads :=
  { mgr := m, m_mutex := none, pc := fun _ => ThreadPc.start, constructed := [] }

/-- Thread `t` runs its next step of the create call for `key`.  A thread that waits
for a taken mutex, or has returned, does nothing. -/
def Threads.step (E : Env) (key : PipelineKey) (s : Threads) (t : Nat) : Threads :=
  match s.pc t with
  | .start =>
    if key.mandatoryAbsent then { s with pc := Function.update s.pc t (ThreadPc.done none) }
    else { s with pc := Function.update s.pc t ThreadPc.waiting }
  | .waiting =>
    match s.m_mutex with
    | none => { s with m_mutex := some t, pc := Function.update s.pc t ThreadPc.locked }
    | some _ => s
  | .locked =>
    match s.mgr.findPipeline E key with
    | some pair => { s with pc := Function.update s.pc t (ThreadPc.leaving (some pair)) }
    | none => { s with pc := Function.update s.pc t ThreadPc.missed }
  | .missed =>
    { s with
      mgr := (s.mgr.emplacePipeline key).2
      pc := Function.update s.pc t (ThreadPc.leaving (some (s.mgr.emplacePipeline key).1))
      constructed := s.constructed ++ [t] }
  | .leaving r => { s with m_mutex := none, pc := Function.update s.pc t (ThreadPc.done r) }
  | .done _ => s

/-- The threads after a schedule, the list of the threads that step, first to last. -/
def Threads.run (E : Env) (key : PipelineKey) (s : Threads) (schedule : List Nat) :
    Threads :=
  schedule.foldl (Threads.step E key) s

/-- What holds of the threads at every point of every schedule, for threads numbered
below `N` that all call the create operation for `key` on a manager that was `m` when
they started. -/
structure Threads.Inv (E : Env) (m : DxvkPipelineManager) (key : PipelineKey) (N : Nat)
    (s : Threads) : Prop where
  /-- Only threads below `N` have moved. -/
  bound : ∀ t, s.pc t ≠ ThreadPc.start → t < N
  /-- The owner of the mutex is the one thread between lock and unlock. -/
  holder : ∀ t, s.m_mutex = some t ↔
    (s.pc t = ThreadPc.locked ∨ s.pc t = ThreadPc.missed ∨ ∃ r, s.pc t = ThreadPc.leaving r)
  /-- A computed return value is the pointer at which the key is found. -/
  result : ∀ t r, (s.pc t = ThreadPc.leaving r ∨ s.pc t = ThreadPc.done r) →
    r = s.mgr.findPipeline E key ∧ r ≠ none
  /-- After a failed `find` the key is still not there. -/
  missed : ∀ t, s.pc t = ThreadPc.missed → s.mgr.findPipeline E key = none
  /-- Either nothing was constructed and the manager is as it was, or one thread ran
  the one `emplace`. -/
  state : (s.mgr = m ∧ s.constructed = []) ∨
    (m.findPipeline E key = none ∧ s.mgr = (m.emplacePipeline key).2 ∧
      ∃ t0, t0 < N ∧ s.constructed = [t0])

/-- The schedule in which the threads `0`, ..., `N - 1` run one after the other, five
steps each. -/
def sequentialSchedule : Nat → List Nat
  | 0 => []
  | n + 1 => sequentialSchedule n ++ [n, n, n, n, n]

/-! ## Lemmas on the node list -/

section umap

variable {K V : Type} (hash : K → Nat) (keyEq : K → K → Bool)

theorem umapFind_lt : ∀ (es : List (K × V)) (k : K) (i : Nat),
    umapFind hash keyEq es k = some i → i < es.length := by
  intro es
  induction es with
  | nil => intro k i h; simp [umapFind] at h
  | cons e es ih =>
    intro k i h
    unfold umapFind at h
    split at h
    · cases h; simp
    · cases hr : umapFind hash keyEq es k with
      | none => simp [hr] at h
      | some j =>
        simp [hr] at h
        have := ih k j hr
        subst h
        simp; omega

theorem umapFind_get : ∀ (es : List (K × V)) (k : K) (i : Nat),
    umapFind hash keyEq es k = some i →
      ∃ e, es[i]? = some e ∧ hash e.1 = hash k ∧ keyEq e.1 k = true := by
  intro es
  induction es with
  | nil => intro k i h; simp [umapFind] at h
  | cons e es ih =>
    intro k i h
    unfold umapFind at h
    split at h
    · next hm => cases h; exact ⟨e, by simp, hm.1, hm.2⟩
    · cases hr : umapFind hash keyEq es k with
      | none => simp [hr] at h
      | some j =>
        simp [hr] at h
        obtain ⟨e1, h1, h2⟩ := ih k j hr
        subst h
        exact ⟨e1, by simpa using h1, h2⟩

theorem umapFind_eq_none_iff : ∀ (es : List (K × V)) (k : K),
    umapFind hash keyEq es k = none ↔
      ∀ e ∈ es, ¬ (hash e.1 = hash k ∧ keyEq e.1 k = true) := by
  intro es
  induction es with
  | nil => intro k; simp [umapFind]
  | cons e es ih =>
    intro k
    unfold umapFind
    split
    · next hm => simp; intro h; exact absurd hm.2 (by simpa using h hm.1)
    · next hm =>
      simp only [Option.map_eq_none', ih k, List.mem_cons, forall_eq_or_imp]
      exact ⟨fun h => ⟨hm, h⟩, fun h => h.2⟩

theorem umapFind_append_of_some : ∀ (es xs : List (K × V)) (k : K) (i : Nat),
    umapFind hash keyEq es k = some i → umapFind hash keyEq (es ++ xs) k = some i := by
  intro es
  induction es with
  | nil => intro xs k i h; simp [umapFind] at h
  | cons e es ih =>
    intro xs k i h
    rw [List.cons_append]
    unfold umapFind at h ⊢
    split
    · next hm => simpa [hm] using h
    · next hm =>
      simp only [hm, if_false] at h
      cases hr : umapFind hash keyEq es k with
      | none => simp [hr] at h
      | some j => rw [ih xs k j hr]; simpa [hr] using h

theorem umapFind_append_of_none : ∀ (es : List (K × V)) (x : K × V) (k : K),
    umapFind hash keyEq es k = none → hash x.1 = hash k → keyEq x.1 k = true →
      umapFind hash keyEq (es ++ [x]) k = some es.length := by
  intro es
  induction es with
  | nil => intro x k _ h1 h2; simp [umapFind, h1, h2]
  | cons e es ih =>
    intro x k h h1 h2
    rw [List.cons_append]
    unfold umapFind at h ⊢
    split
    · next hm => simp [hm] at h
    · next hm =>
      simp only [hm, if_false, Option.map_eq_none'] at h
      rw [ih x k h h1 h2]; simp

theorem umapFind_of_extension (es es1 : List (K × V)) (k : K) (i : Nat)
    (hp : es <+: es1) (h : umapFind hash keyEq es k = some i) :
    umapFind hash keyEq es1 k = some i := by
  obtain ⟨xs, rfl⟩ := hp
  exact umapFind_append_of_some hash keyEq es xs k i h

end umap

/-! ## Lemmas on the key functors -/

theorem Rc.eq_iff (a b : Rc) : a.eq b = true ↔ a = b := by
  cases a; cases b; simp [Rc.eq]

theorem Rc.eq_self (a : Rc) : a.eq a = true := by simp [Rc.eq]

theorem keyEq_compute_iff (a b : DxvkComputePipelineShaders) :
    DxvkPipelineKeyEq.applyCompute a b = true ↔ a = b := by
  cases a; cases b; simp [DxvkPipelineKeyEq.applyCompute, Rc.eq_iff]

theorem keyEq_graphics_iff (a b : DxvkGraphicsPipelineShaders) :
    DxvkPipelineKeyEq.applyGraphics a b = true ↔ a = b := by
  cases a; cases b
  simp [DxvkPipelineKeyEq.applyGraphics, Rc.eq_iff, and_assoc]

/-! ## Lemmas on the two create operations -/

theorem createCompute_null (E : Env) (m : DxvkPipelineManager)
    (k : DxvkComputePipelineShaders) (h : k.cs.ptr = 0) :
    m.createComputePipeline E k = (none, m) := by
  simp [DxvkPipelineManager.createComputePipeline, Rc.isNull, h]

theorem createCompute_hit (E : Env) (m : DxvkPipelineManager)
    (k : DxvkComputePipelineShaders) (i : Nat) (h : k.cs.ptr ≠ 0)
    (hf : umapFind (DxvkPipelineKeyHash.applyCompute E) DxvkPipelineKeyEq.applyCompute
      m.m_computePipelines k = some i) :
    m.createComputePipeline E k = (some i, m) := by
  simp [DxvkPipelineManager.createComputePipeline, Rc.isNull, h, hf]

theorem createCompute_miss (E : Env) (m : DxvkPipelineManager)
    (k : DxvkComputePipelineShaders) (h : k.cs.ptr ≠ 0)
    (hf : umapFind (DxvkPipelineKeyHash.applyCompute E) DxvkPipelineKeyEq.applyCompute
      m.m_computePipelines k = none) :
    m.createComputePipeline E k =
      (some m.m_computePipelines.length,
       { m with
         m_numComputePipelines := m.m_numComputePipelines + 1
         m_computePipelines := m.m_computePipelines ++ [(k, { m_shaders := k })] }) := by
  simp [DxvkPipelineManager.createComputePipeline, Rc.isNull, h, hf,
    DxvkComputePipeline.construct]

theorem createGraphics_null (E : Env) (m : DxvkPipelineManager)
    (k : DxvkGraphicsPipelineShaders) (h : k.vs.ptr = 0) :
    m.createGraphicsPipeline E k = (none, m) := by
  simp [DxvkPipelineManager.createGraphicsPipeline, Rc.isNull, h]

theorem createGraphics_hit (E : Env) (m : DxvkPipelineManager)
    (k : DxvkGraphicsPipelineShaders) (i : Nat) (h : k.vs.ptr ≠ 0)
    (hf : umapFind (DxvkPipelineKeyHash.applyGraphics E) DxvkPipelineKeyEq.applyGraphics
      m.m_graphicsPipelines k = some i) :
    m.createGraphicsPipeline E k = (some i, m) := by
  simp [DxvkPipelineManager.createGraphicsPipeline, Rc.isNull, h, hf]

theorem createGraphics_miss (E : Env) (m : DxvkPipelineManager)
    (k : DxvkGraphicsPipelineShaders) (h : k.vs.ptr ≠ 0)
    (hf : umapFind (DxvkPipelineKeyHash.applyGraphics E) DxvkPipelineKeyEq.applyGraphics
      m.m_graphicsPipelines k = none) :
    m.createGraphicsPipeline E k =
      (some m.m_graphicsPipelines.length,
       { m with
         m_numGraphicsPipelines := m.m_numGraphicsPipelines + 1
         m_graphicsPipelines := m.m_graphicsPipelines ++ [(k, { m_shaders := k })] }) := by
  simp [DxvkPipelineManager.createGraphicsPipeline, Rc.isNull, h, hf,
    DxvkGraphicsPipeline.construct]

/-- After a create call with a present compute shader the key is found, at the
returned pointer. -/
theorem createCompute_find (E : Env) (m : DxvkPipelineManager)
    (k : DxvkComputePipelineShaders) (h : k.cs.ptr ≠ 0) :
    ∃ p, (m.createComputePipeline E k).1 = some p ∧
      umapFind (DxvkPipelineKeyHash.applyCompute E) DxvkPipelineKeyEq.applyCompute
        (m.createComputePipeline E k).2.m_computePipelines k = some p := by
  cases hf : umapFind (DxvkPipelineKeyHash.applyCompute E) DxvkPipelineKeyEq.applyCompute
      m.m_computePipelines k with
  | some i => rw [createCompute_hit E m k i h hf]; exact ⟨i, rfl, hf⟩
  | none =>
    rw [createCompute_miss E m k h hf]
    exact ⟨_, rfl, umapFind_append_of_none _ _ _ _ k hf rfl
      ((keyEq_compute_iff k k).2 rfl)⟩

/-- After a create call with a present vertex shader the key is found, at the
returned pointer. -/
theorem createGraphics_find (E : Env) (m : DxvkPipelineManager)
    (k : DxvkGraphicsPipelineShaders) (h : k.vs.ptr ≠ 0) :
    ∃ p, (m.createGraphicsPipeline E k).1 = some p ∧
      umapFind (DxvkPipelineKeyHash.applyGraphics E) DxvkPipelineKeyEq.applyGraphics
        (m.createGraphicsPipeline E k).2.m_graphicsPipelines k = some p := by
  cases hf : umapFind (DxvkPipelineKeyHash.applyGraphics E) DxvkPipelineKeyEq.applyGraphics
      m.m_graphicsPipelines k with
  | some i => rw [createGraphics_hit E m k i h hf]; exact ⟨i, rfl, hf⟩
  | none =>
    rw [createGraphics_miss E m k h hf]
    exact ⟨_, rfl, umapFind_append_of_none _ _ _ _ k hf rfl
      ((keyEq_graphics_iff k k).2 rfl)⟩

/-- A compute create call only appends to the compute mapping and leaves the graphics
mapping and the state cache alone. -/
theorem createCompute_frame (E : Env) (m : DxvkPipelineManager)
    (k : DxvkComputePipelineShaders) :
    m.m_computePipelines <+: (m.createComputePipeline E k).2.m_computePipelines ∧
    (m.createComputePipeline E k).2.m_graphicsPipelines = m.m_graphicsPipelines ∧
    (m.createComputePipeline E k).2.m_stateCache = m.m_stateCache := by
  by_cases h : k.cs.ptr = 0
  · rw [createCompute_null E m k h]; exact ⟨List.prefix_refl _, rfl, rfl⟩
  · cases hf : umapFind (DxvkPipelineKeyHash.applyCompute E)
        DxvkPipelineKeyEq.applyCompute m.m_computePipelines k with
    | some i => rw [createCompute_hit E m k i h hf]; exact ⟨List.prefix_refl _, rfl, rfl⟩
    | none => rw [createCompute_miss E m k h hf]; exact ⟨List.prefix_append _ _, rfl, rfl⟩

/-- A graphics create call only appends to the graphics mapping and leaves the compute
mapping and the state cache alone. -/
theorem createGraphics_frame (E : Env) (m : DxvkPipelineManager)
    (k : DxvkGraphicsPipelineShaders) :
    m.m_graphicsPipelines <+: (m.createGraphicsPipeline E k).2.m_graphicsPipelines ∧
    (m.createGraphicsPipeline E k).2.m_computePipelines = m.m_computePipelines ∧
    (m.createGraphicsPipeline E k).2.m_stateCache = m.m_stateCache := by
  by_cases h : k.vs.ptr = 0
  · rw [createGraphics_null E m k h]; exact ⟨List.prefix_refl _, rfl, rfl⟩
  · cases hf : umapFind (DxvkPipelineKeyHash.applyGraphics E)
        DxvkPipelineKeyEq.applyGraphics m.m_graphicsPipelines k with
    | some i => rw [createGraphics_hit E m k i h hf]; exact ⟨List.prefix_refl _, rfl, rfl⟩
    | none => rw [createGraphics_miss E m k h hf]; exact ⟨List.prefix_append _ _, rfl, rfl⟩

/-- A compute key that is found sits, with its pipeline object, at the returned
position. -/
theorem findCompute_entry (E : Env)
    (es : List (DxvkComputePipelineShaders × DxvkComputePipeline))
    (k : DxvkComputePipelineShaders) (i : Nat)
    (h : umapFind (DxvkPipelineKeyHash.applyCompute E) DxvkPipelineKeyEq.applyCompute
      es k = some i) :
    ∃ obj, es[i]? = some (k, obj) := by
  obtain ⟨e, he, _, hk⟩ := umapFind_get _ _ es k i h
  rw [keyEq_compute_iff] at hk
  exact ⟨e.2, by rw [he, ← hk]⟩

/-- A graphics key that is found sits, with its pipeline object, at the returned
position. -/
theorem findGraphics_entry (E : Env)
    (es : List (DxvkGraphicsPipelineShaders × DxvkGraphicsPipeline))
    (k : DxvkGraphicsPipelineShaders) (i : Nat)
    (h : umapFind (DxvkPipelineKeyHash.applyGraphics E) DxvkPipelineKeyEq.applyGraphics
      es k = some i) :
    ∃ obj, es[i]? = some (k, obj) := by
  obtain ⟨e, he, _, hk⟩ := umapFind_get _ _ es k i h
  rw [keyEq_graphics_iff] at hk
  exact ⟨e.2, by rw [he, ← hk]⟩

/-- Two create calls in a row with different valid compute keys return different
pointers, and both keys sit in the mapping afterwards. -/
theorem createCompute_two_keys (E : Env) (m : DxvkPipelineManager)
    (a b : DxvkComputePipelineShaders) (ha : a.cs.ptr ≠ 0) (hb : b.cs.ptr ≠ 0)
    (hab : a ≠ b) :
    ∃ pA pB,
      (m.createComputePipeline E a).1 = some pA ∧
      ((m.createComputePipeline E a).2.createComputePipeline E b).1 = some pB ∧
      pA ≠ pB ∧
      (∃ obj, ((m.createComputePipeline E a).2.createComputePipeline E b).2.m_computePipelines[pA]?
        = some (a, obj)) ∧
      (∃ obj, ((m.createComputePipeline E a).2.createComputePipeline E b).2.m_computePipelines[pB]?
        = some (b, obj)) := by
  obtain ⟨pA, h1, f1⟩ := createCompute_find E m a ha
  obtain ⟨pB, h2, f2⟩ := createCompute_find E (m.createComputePipeline E a).2 b hb
  have f1b := umapFind_of_extension _ _ _ _ a pA
    (createCompute_frame E (m.createComputePipeline E a).2 b).1 f1
  obtain ⟨oA, eA⟩ := findCompute_entry E _ a pA f1b
  obtain ⟨oB, eB⟩ := findCompute_entry E _ b pB f2
  refine ⟨pA, pB, h1, h2, ?_, ⟨oA, eA⟩, ⟨oB, eB⟩⟩
  intro hp
  rw [hp, eB] at eA
  exact hab (by cases eA; rfl)

/-- Two create calls in a row with different valid graphics keys return different
pointers, and both keys sit in the mapping afterwards. -/
theorem createGraphics_two_keys (E : Env) (m : DxvkPipelineManager)
    (a b : DxvkGraphicsPipelineShaders) (ha : a.vs.ptr ≠ 0) (hb : b.vs.ptr ≠ 0)
    (hab : a ≠ b) :
    ∃ pA pB,
      (m.createGraphicsPipeline E a).1 = some pA ∧
      ((m.createGraphicsPipeline E a).2.createGraphicsPipeline E b).1 = some pB ∧
      pA ≠ pB ∧
      (∃ obj, ((m.createGraphicsPipeline E a).2.createGraphicsPipeline E b).2.m_graphicsPipelines[pA]?
        = some (a, obj)) ∧
      (∃ obj, ((m.createGraphicsPipeline E a).2.createGraphicsPipeline E b).2.m_graphicsPipelines[pB]?
        = some (b, obj)) := by
  obtain ⟨pA, h1, f1⟩ := createGraphics_find E m a ha
  obtain ⟨pB, h2, f2⟩ := createGraphics_find E (m.createGraphicsPipeline E a).2 b hb
  have f1b := umapFind_of_extension _ _ _ _ a pA
    (createGraphics_frame E (m.createGraphicsPipeline E a).2 b).1 f1
  obtain ⟨oA, eA⟩ := findGraphics_entry E _ a pA f1b
  obtain ⟨oB, eB⟩ := findGraphics_entry E _ b pB f2
  refine ⟨pA, pB, h1, h2, ?_, ⟨oA, eA⟩, ⟨oB, eB⟩⟩
  intro hp
  rw [hp, eB] at eA
  exact hab (by cases eA; rfl)

theorem withStage_vs_ne_zero (base : DxvkGraphicsPipelineShaders) (stage : Stage)
    (s : Rc) (hs : s.ptr ≠ 0) (hv : stage = Stage.vs ∨ base.vs.ptr ≠ 0) :
    (base.withStage stage s).vs.ptr ≠ 0 := by
  cases stage <;> simp_all [DxvkGraphicsPipelineShaders.withStage]

theorem withStage_injective (base : DxvkGraphicsPipelineShaders) (stage : Stage)
    (s t : Rc) (h : base.withStage stage s = base.withStage stage t) : s = t := by
  cases stage <;> simp_all [DxvkGraphicsPipelineShaders.withStage]

/-! ## The claims -/

/-- C1: for every manager state, a compute key whose compute shader is present and a
graphics key whose vertex shader is present, two create calls in succession with the
same key return the same non-null pipeline pointer, and the second call returns the
manager exactly as the first call left it (no node is added, nothing is constructed). -/
theorem create_twice_same_pipeline (E : Env) (m : DxvkPipelineManager)
    (c : DxvkComputePipelineShaders) (g : DxvkGraphicsPipelineShaders)
    (hc : c.cs.ptr ≠ 0) (hg : g.vs.ptr ≠ 0) :
    (∃ p, (m.createComputePipeline E c).1 = some p ∧
      (m.createComputePipeline E c).2.createComputePipeline E c
        = (some p, (m.createComputePipeline E c).2)) ∧
    (∃ p, (m.createGraphicsPipeline E g).1 = some p ∧
      (m.createGraphicsPipeline E g).2.createGraphicsPipeline E g
        = (some p, (m.createGraphicsPipeline E g).2)) := by
  constructor
  · obtain ⟨p, h1, f1⟩ := createCompute_find E m c hc
    exact ⟨p, h1, createCompute_hit E _ c p hc f1⟩
  · obtain ⟨p, h1, f1⟩ := createGraphics_find E m g hg
    exact ⟨p, h1, createGraphics_hit E _ g p hg f1⟩

/-- Witness of C1: the example manager, the compute key of the shader at 4096 and the
graphics key with vertex shader 4096 and fragment shader 8192. -/
theorem create_twice_same_pipeline_witness :
    (4096 ≠ 0) ∧
    (∃ p, (exampleManager.createComputePipeline exampleEnv ⟨⟨4096⟩⟩).1 = some p ∧
      (exampleManager.createComputePipeline exampleEnv ⟨⟨4096⟩⟩).2.createComputePipeline
          exampleEnv ⟨⟨4096⟩⟩
        = (some p, (exampleManager.createComputePipeline exampleEnv ⟨⟨4096⟩⟩).2)) ∧
    (∃ p, (exampleManager.createGraphicsPipeline exampleEnv
          ⟨⟨4096⟩, ⟨0⟩, ⟨0⟩, ⟨0⟩, ⟨8192⟩⟩).1 = some p ∧
      (exampleManager.createGraphicsPipeline exampleEnv
          ⟨⟨4096⟩, ⟨0⟩, ⟨0⟩, ⟨0⟩, ⟨8192⟩⟩).2.createGraphicsPipeline
          exampleEnv ⟨⟨4096⟩, ⟨0⟩, ⟨0⟩, ⟨0⟩, ⟨8192⟩⟩
        = (some p, (exampleManager.createGraphicsPipeline exampleEnv
          ⟨⟨4096⟩, ⟨0⟩, ⟨0⟩, ⟨0⟩, ⟨8192⟩⟩).2)) :=
  ⟨by decide,
   create_twice_same_pipeline exampleEnv exampleManager ⟨⟨4096⟩⟩
     ⟨⟨4096⟩, ⟨0⟩, ⟨0⟩, ⟨0⟩, ⟨8192⟩⟩ (by decide) (by decide)⟩

/-- C2: for every manager state and every two distinct shader objects A and B with
equal content hash, creating a pipeline for the key built from A and then for the key
built from B returns two distinct non-null pipeline pointers, and afterwards each of
the two keys sits in the mapping at its pointer.  Compute keys hold A or B in the
compute slot; graphics keys are one key `base` with A or B put in one slot `stage`,
the vertex slot being present. -/
theorem distinct_objects_distinct_pipelines (E : Env) (m : DxvkPipelineManager)
    (A B : Rc) (base : DxvkGraphicsPipelineShaders) (stage : Stage)
    (hA : A.ptr ≠ 0) (hB : B.ptr ≠ 0) (hAB : A ≠ B)
    (_hhash : E.getHash A.ptr = E.getHash B.ptr)
    (hv : stage = Stage.vs ∨ base.vs.ptr ≠ 0) :
    (∃ pA pB,
      (m.createComputePipeline E ⟨A⟩).1 = some pA ∧
      ((m.createComputePipeline E ⟨A⟩).2.createComputePipeline E ⟨B⟩).1 = some pB ∧
      pA ≠ pB ∧
      (∃ obj, ((m.createComputePipeline E ⟨A⟩).2.createComputePipeline E
        ⟨B⟩).2.m_computePipelines[pA]? = some (⟨A⟩, obj)) ∧
      (∃ obj, ((m.createComputePipeline E ⟨A⟩).2.createComputePipeline E
        ⟨B⟩).2.m_computePipelines[pB]? = some (⟨B⟩, obj))) ∧
    (∃ pA pB,
      (m.createGraphicsPipeline E (base.withStage stage A)).1 = some pA ∧
      ((m.createGraphicsPipeline E (base.withStage stage A)).2.createGraphicsPipeline E
        (base.withStage stage B)).1 = some pB ∧
      pA ≠ pB ∧
      (∃ obj, ((m.createGraphicsPipeline E (base.withStage stage A)).2.createGraphicsPipeline
        E (base.withStage stage B)).2.m_graphicsPipelines[pA]?
          = some (base.withStage stage A, obj)) ∧
      (∃ obj, ((m.createGraphicsPipeline E (base.withStage stage A)).2.createGraphicsPipeline
        E (base.withStage stage B)).2.m_graphicsPipelines[pB]?
          = some (base.withStage stage B, obj))) := by
  constructor
  · exact createCompute_two_keys E m ⟨A⟩ ⟨B⟩ hA hB (by intro h; cases h; exact hAB rfl)
  · exact createGraphics_two_keys E m _ _ (withStage_vs_ne_zero base stage A hA hv)
      (withStage_vs_ne_zero base stage B hB hv)
      (fun h => hAB (withStage_injective base stage A B h))

/-- Witness of C2: the shader objects at 4096 and 8192 share the content hash 7; the
graphics keys hold them in the fragment slot next to the vertex shader at 4097. -/
theorem distinct_objects_distinct_pipelines_witness :
    ((⟨4096⟩ : Rc) ≠ ⟨8192⟩ ∧ exampleEnv.getHash 4096 = exampleEnv.getHash 8192) ∧
    (∃ pA pB,
      (exampleManager.createComputePipeline exampleEnv ⟨⟨4096⟩⟩).1 = some pA ∧
      ((exampleManager.createComputePipeline exampleEnv ⟨⟨4096⟩⟩).2.createComputePipeline
        exampleEnv ⟨⟨8192⟩⟩).1 = some pB ∧
      pA ≠ pB ∧
      (∃ obj, ((exampleManager.createComputePipeline exampleEnv
        ⟨⟨4096⟩⟩).2.createComputePipeline exampleEnv
        ⟨⟨8192⟩⟩).2.m_computePipelines[pA]? = some (⟨⟨4096⟩⟩, obj)) ∧
      (∃ obj, ((exampleManager.createComputePipeline exampleEnv
        ⟨⟨4096⟩⟩).2.createComputePipeline exampleEnv
        ⟨⟨8192⟩⟩).2.m_computePipelines[pB]? = some (⟨⟨8192⟩⟩, obj))) :=
  ⟨⟨by decide, by decide⟩,
   (distinct_objects_distinct_pipelines exampleEnv exampleManager ⟨4096⟩ ⟨8192⟩
     ⟨⟨4097⟩, ⟨0⟩, ⟨0⟩, ⟨0⟩, ⟨0⟩⟩ Stage.fs (by decide) (by decide) (by decide) (by decide)
     (Or.inr (by decide))).1⟩

/-- C3: `createComputePipeline` returns `nullptr` and the manager unchanged (mappings,
counters, state cache) when the compute shader is absent, and `createGraphicsPipeline`
does so when the vertex shader is absent, whatever the other four slots hold.  When
the mandatory slot is present the call returns a non-null pointer, and afterwards the
mapping holds the key, with its pipeline object, at that pointer.  The operations are
total functions: no error is raised. -/
theorem create_null_iff_mandatory_absent (E : Env) (m : DxvkPipelineManager)
    (c0 c1 : DxvkComputePipelineShaders) (g0 g1 : DxvkGraphicsPipelineShaders)
    (hc0 : c0.cs.ptr = 0) (hg0 : g0.vs.ptr = 0)
    (hc1 : c1.cs.ptr ≠ 0) (hg1 : g1.vs.ptr ≠ 0) :
    m.createComputePipeline E c0 = (none, m) ∧
    m.createGraphicsPipeline E g0 = (none, m) ∧
    (∃ p obj, (m.createComputePipeline E c1).1 = some p ∧
      (m.createComputePipeline E c1).2.m_computePipelines[p]? = some (c1, obj)) ∧
    (∃ p obj, (m.createGraphicsPipeline E g1).1 = some p ∧
      (m.createGraphicsPipeline E g1).2.m_graphicsPipelines[p]? = some (g1, obj)) := by
  refine ⟨createCompute_null E m c0 hc0, createGraphics_null E m g0 hg0, ?_, ?_⟩
  · obtain ⟨p, h1, f1⟩ := createCompute_find E m c1 hc1
    obtain ⟨obj, he⟩ := findCompute_entry E _ c1 p f1
    exact ⟨p, obj, h1, he⟩
  · obtain ⟨p, h1, f1⟩ := createGraphics_find E m g1 hg1
    obtain ⟨obj, he⟩ := findGraphics_entry E _ g1 p f1
    exact ⟨p, obj, h1, he⟩

/-- Witness of C3: a null compute key, a graphics key with only a fragment shader, and
two valid keys, on the example manager. -/
theorem create_null_iff_mandatory_absent_witness :
    exampleManager.createComputePipeline exampleEnv ⟨⟨0⟩⟩ = (none, exampleManager) ∧
    exampleManager.createGraphicsPipeline exampleEnv ⟨⟨0⟩, ⟨0⟩, ⟨0⟩, ⟨0⟩, ⟨8192⟩⟩
      = (none, exampleManager) ∧
    (∃ p obj, (exampleManager.createComputePipeline exampleEnv ⟨⟨4096⟩⟩).1 = some p ∧
      (exampleManager.createComputePipeline exampleEnv ⟨⟨4096⟩⟩).2.m_computePipelines[p]?
        = some (⟨⟨4096⟩⟩, obj)) ∧
    (∃ p obj, (exampleManager.createGraphicsPipeline exampleEnv
        ⟨⟨4096⟩, ⟨0⟩, ⟨0⟩, ⟨0⟩, ⟨8192⟩⟩).1 = some p ∧
      (exampleManager.createGraphicsPipeline exampleEnv
        ⟨⟨4096⟩, ⟨0⟩, ⟨0⟩, ⟨0⟩, ⟨8192⟩⟩).2.m_graphicsPipelines[p]?
        = some (⟨⟨4096⟩, ⟨0⟩, ⟨0⟩, ⟨0⟩, ⟨8192⟩⟩, obj)) :=
  create_null_iff_mandatory_absent exampleEnv exampleManager ⟨⟨0⟩⟩ ⟨⟨4096⟩⟩
    ⟨⟨0⟩, ⟨0⟩, ⟨0⟩, ⟨0⟩, ⟨8192⟩⟩ ⟨⟨4096⟩, ⟨0⟩, ⟨0⟩, ⟨0⟩, ⟨8192⟩⟩
    (by decide) (by decide) (by decide) (by decide)

/-- C4: `DxvkPipelineKeyEq` is true on two graphics keys exactly when each of the five
slots of one holds the same shader object (the same address, `nullptr` in both
counting as the same) as the slot of the other, and on two compute keys exactly when
the compute slots hold the same object.  The functor takes no environment: no
content hash is read, and under every environment, whatever the content hashes, the
answer is the comparison of the addresses. -/
theorem keyEq_iff_same_objects (a b : DxvkGraphicsPipelineShaders)
    (c d : DxvkComputePipelineShaders) :
    (DxvkPipelineKeyEq.applyGraphics a b = true ↔
      a.vs.ptr = b.vs.ptr ∧ a.tcs.ptr = b.tcs.ptr ∧ a.tes.ptr = b.tes.ptr ∧
        a.gs.ptr = b.gs.ptr ∧ a.fs.ptr = b.fs.ptr) ∧
    (DxvkPipelineKeyEq.applyCompute c d = true ↔ c.cs.ptr = d.cs.ptr) := by
  constructor
  · simp [DxvkPipelineKeyEq.applyGraphics, Rc.eq, and_assoc]
  · simp [DxvkPipelineKeyEq.applyCompute, Rc.eq]

/-! ## Sequences of operations -/

theorem registerShader_frame (m : DxvkPipelineManager) (shader : Rc) :
    (m.registerShader shader).m_computePipelines = m.m_computePipelines ∧
    (m.registerShader shader).m_graphicsPipelines = m.m_graphicsPipelines ∧
    (m.registerShader shader).m_numComputePipelines = m.m_numComputePipelines ∧
    (m.registerShader shader).m_numGraphicsPipelines = m.m_numGraphicsPipelines := by
  unfold DxvkPipelineManager.registerShader
  cases m.m_stateCache <;> simp

theorem step_grows (E : Env) (m : DxvkPipelineManager) (op : Op) :
    m.m_computePipelines <+: (m.step E op).m_computePipelines ∧
    m.m_graphicsPipelines <+: (m.step E op).m_graphicsPipelines := by
  cases op with
  | createCompute k =>
    have h := createCompute_frame E m k
    exact ⟨h.1, by simp [DxvkPipelineManager.step, h.2.1]⟩
  | createGraphics k =>
    have h := createGraphics_frame E m k
    exact ⟨by simp [DxvkPipelineManager.step, h.2.1], h.1⟩
  | registerShader s =>
    have h := registerShader_frame m s
    simp [DxvkPipelineManager.step, h.1, h.2.1]
  | getPipelineCount => simp [DxvkPipelineManager.step]
  | isCompilingShaders => simp [DxvkPipelineManager.step]

theorem run_grows (E : Env) (ops : List Op) : ∀ m : DxvkPipelineManager,
    m.m_computePipelines <+: (m.run E ops).m_computePipelines ∧
    m.m_graphicsPipelines <+: (m.run E ops).m_graphicsPipelines := by
  induction ops with
  | nil => intro m; exact ⟨List.prefix_refl _, List.prefix_refl _⟩
  | cons op ops ih =>
    intro m
    have h1 := step_grows E m op
    have h2 := ih (m.step E op)
    simp only [DxvkPipelineManager.run, List.foldl_cons] at h2 ⊢
    exact ⟨h1.1.trans h2.1, h1.2.trans h2.2⟩

theorem createCompute_some_valid (E : Env) (m : DxvkPipelineManager)
    (k : DxvkComputePipelineShaders) (p : Nat)
    (h : (m.createComputePipeline E k).1 = some p) : k.cs.ptr ≠ 0 := by
  intro h0
  rw [createCompute_null E m k h0] at h
  cases h

theorem createGraphics_some_valid (E : Env) (m : DxvkPipelineManager)
    (k : DxvkGraphicsPipelineShaders) (p : Nat)
    (h : (m.createGraphicsPipeline E k).1 = some p) : k.vs.ptr ≠ 0 := by
  intro h0
  rw [createGraphics_null E m k h0] at h
  cases h

/-- C5: nodes are never removed or replaced.  Over every sequence of manager
operations (the two create calls, `registerShader`, `getPipelineCount`,
`isCompilingShaders`) each node list only grows at its end, so every node keeps its
position, key and object; and once a create call has returned the pointer `P` for a
key, a create call with that key after any such sequence returns `P` again. -/
theorem entries_never_removed (E : Env) (m : DxvkPipelineManager) (ops : List Op)
    (c : DxvkComputePipelineShaders) (g : DxvkGraphicsPipelineShaders) (pc pg : Nat)
    (hc : (m.createComputePipeline E c).1 = some pc)
    (hg : (m.createGraphicsPipeline E g).1 = some pg) :
    (((m.createComputePipeline E c).2.run E ops).createComputePipeline E c).1 = some pc ∧
    (((m.createGraphicsPipeline E g).2.run E ops).createGraphicsPipeline E g).1 = some pg ∧
    m.m_computePipelines <+: (m.run E ops).m_computePipelines ∧
    m.m_graphicsPipelines <+: (m.run E ops).m_graphicsPipelines := by
  refine ⟨?_, ?_, (run_grows E ops m).1, (run_grows E ops m).2⟩
  · have hv := createCompute_some_valid E m c pc hc
    obtain ⟨p, h1, f1⟩ := createCompute_find E m c hv
    rw [hc] at h1
    cases h1
    have f2 := umapFind_of_extension _ _ _ _ c pc
      (run_grows E ops (m.createComputePipeline E c).2).1 f1
    rw [createCompute_hit E _ c pc hv f2]
  · have hv := createGraphics_some_valid E m g pg hg
    obtain ⟨p, h1, f1⟩ := createGraphics_find E m g hv
    rw [hg] at h1
    cases h1
    have f2 := umapFind_of_extension _ _ _ _ g pg
      (run_grows E ops (m.createGraphicsPipeline E g).2).2 f1
    rw [createGraphics_hit E _ g pg hv f2]

/-- Witness of C5: on the example manager the compute key of 4096 and a graphics key
get the pointer 0, and get it again after two other keys were inserted, a shader was
registered and both queries ran. -/
theorem entries_never_removed_witness :
    ((exampleManager.createComputePipeline exampleEnv ⟨⟨4096⟩⟩).1 = some 0 ∧
      (exampleManager.createGraphicsPipeline exampleEnv
        ⟨⟨4096⟩, ⟨0⟩, ⟨0⟩, ⟨0⟩, ⟨8192⟩⟩).1 = some 0) ∧
    (((exampleManager.createComputePipeline exampleEnv ⟨⟨4096⟩⟩).2.run exampleEnv
      [Op.createCompute ⟨⟨8192⟩⟩, Op.createGraphics ⟨⟨8192⟩, ⟨0⟩, ⟨0⟩, ⟨0⟩, ⟨4096⟩⟩,
       Op.registerShader ⟨4096⟩, Op.getPipelineCount,
       Op.isCompilingShaders]).createComputePipeline exampleEnv ⟨⟨4096⟩⟩).1 = some 0 ∧
    (((exampleManager.createGraphicsPipeline exampleEnv
        ⟨⟨4096⟩, ⟨0⟩, ⟨0⟩, ⟨0⟩, ⟨8192⟩⟩).2.run exampleEnv
      [Op.createCompute ⟨⟨8192⟩⟩, Op.createGraphics ⟨⟨8192⟩, ⟨0⟩, ⟨0⟩, ⟨0⟩, ⟨4096⟩⟩,
       Op.registerShader ⟨4096⟩, Op.getPipelineCount,
       Op.isCompilingShaders]).createGraphicsPipeline exampleEnv
        ⟨⟨4096⟩, ⟨0⟩, ⟨0⟩, ⟨0⟩, ⟨8192⟩⟩).1 = some 0 ∧
    exampleManager.m_computePipelines <+: (exampleManager.run exampleEnv
      [Op.createCompute ⟨⟨8192⟩⟩, Op.createGraphics ⟨⟨8192⟩, ⟨0⟩, ⟨0⟩, ⟨0⟩, ⟨4096⟩⟩,
       Op.registerShader ⟨4096⟩, Op.getPipelineCount,
       Op.isCompilingShaders]).m_computePipelines ∧
    exampleManager.m_graphicsPipelines <+: (exampleManager.run exampleEnv
      [Op.createCompute ⟨⟨8192⟩⟩, Op.createGraphics ⟨⟨8192⟩, ⟨0⟩, ⟨0⟩, ⟨0⟩, ⟨4096⟩⟩,
       Op.registerShader ⟨4096⟩, Op.getPipelineCount,
       Op.isCompilingShaders]).m_graphicsPipelines :=
  ⟨⟨by decide, by decide⟩,
   entries_never_removed exampleEnv exampleManager
     [Op.createCompute ⟨⟨8192⟩⟩, Op.createGraphics ⟨⟨8192⟩, ⟨0⟩, ⟨0⟩, ⟨0⟩, ⟨4096⟩⟩,
      Op.registerShader ⟨4096⟩, Op.getPipelineCount, Op.isCompilingShaders]
     ⟨⟨4096⟩⟩ ⟨⟨4096⟩, ⟨0⟩, ⟨0⟩, ⟨0⟩, ⟨8192⟩⟩ 0 0 (by decide) (by decide)⟩

/-! ## One node per key -/

section requests

variable {K : Type} (valid : K → Prop)

theorem requests_same (keys R : List K) (k : K)
    (hmem : ∀ x, x ∈ keys ↔ x ∈ R ∧ valid x) (hk : k ∈ keys ∨ ¬ valid k) :
    ∀ x, x ∈ keys ↔ x ∈ R ++ [k] ∧ valid x := by
  intro x
  rw [hmem x]
  constructor
  · rintro ⟨h1, h2⟩; exact ⟨List.mem_append_left _ h1, h2⟩
  · rintro ⟨h1, h2⟩
    rcases List.mem_append.1 h1 with h | h
    · exact ⟨h, h2⟩
    · have hx : x = k := by simpa using h
      subst hx
      rcases hk with hk | hk
      · exact (hmem x).1 hk
      · exact absurd h2 hk

theorem requests_insert (keys R : List K) (k : K) (hnd : keys.Nodup)
    (hmem : ∀ x, x ∈ keys ↔ x ∈ R ∧ valid x) (hk : k ∉ keys) (hv : valid k) :
    (keys ++ [k]).Nodup ∧ ∀ x, x ∈ keys ++ [k] ↔ x ∈ R ++ [k] ∧ valid x := by
  constructor
  · rw [List.nodup_append]
    refine ⟨hnd, List.nodup_singleton k, ?_⟩
    intro a ha hb
    have : a = k := by simpa using hb
    exact hk (this ▸ ha)
  · intro x
    simp only [List.mem_append, List.mem_singleton, hmem x]
    constructor
    · rintro (⟨h1, h2⟩ | h)
      · exact ⟨Or.inl h1, h2⟩
      · exact ⟨Or.inr h, h ▸ hv⟩
    · rintro ⟨h1 | h1, h2⟩
      · exact Or.inl ⟨h1, h2⟩
      · exact Or.inr h1

end requests

theorem findCompute_none_iff (E : Env)
    (es : List (DxvkComputePipelineShaders × DxvkComputePipeline))
    (k : DxvkComputePipelineShaders) :
    umapFind (DxvkPipelineKeyHash.applyCompute E) DxvkPipelineKeyEq.applyCompute es k = none
      ↔ k ∉ es.map Prod.fst := by
  rw [umapFind_eq_none_iff]
  constructor
  · intro h hk
    obtain ⟨e, he, rfl⟩ := List.mem_map.1 hk
    exact h e he ⟨rfl, (keyEq_compute_iff _ _).2 rfl⟩
  · rintro h e he ⟨_, hk⟩
    rw [keyEq_compute_iff] at hk
    exact h (hk ▸ List.mem_map_of_mem _ he)

theorem findGraphics_none_iff (E : Env)
    (es : List (DxvkGraphicsPipelineShaders × DxvkGraphicsPipeline))
    (k : DxvkGraphicsPipelineShaders) :
    umapFind (DxvkPipelineKeyHash.applyGraphics E) DxvkPipelineKeyEq.applyGraphics es k = none
      ↔ k ∉ es.map Prod.fst := by
  rw [umapFind_eq_none_iff]
  constructor
  · intro h hk
    obtain ⟨e, he, rfl⟩ := List.mem_map.1 hk
    exact h e he ⟨rfl, (keyEq_graphics_iff _ _).2 rfl⟩
  · rintro h e he ⟨_, hk⟩
    rw [keyEq_graphics_iff] at hk
    exact h (hk ▸ List.mem_map_of_mem _ he)

theorem createCompute_requests (E : Env) (m : DxvkPipelineManager)
    (k : DxvkComputePipelineShaders) (R : List DxvkComputePipelineShaders)
    (hnd : (m.m_computePipelines.map Prod.fst).Nodup)
    (hmem : ∀ x, x ∈ m.m_computePipelines.map Prod.fst ↔ x ∈ R ∧ x.cs.ptr ≠ 0) :
    ((m.createComputePipeline E k).2.m_computePipelines.map Prod.fst).Nodup ∧
    ∀ x, x ∈ (m.createComputePipeline E k).2.m_computePipelines.map Prod.fst
      ↔ x ∈ R ++ [k] ∧ x.cs.ptr ≠ 0 := by
  by_cases h : k.cs.ptr = 0
  · rw [createCompute_null E m k h]
    exact ⟨hnd, requests_same _ _ R k hmem (Or.inr (not_not.2 h))⟩
  · cases hf : umapFind (DxvkPipelineKeyHash.applyCompute E)
        DxvkPipelineKeyEq.applyCompute m.m_computePipelines k with
    | some i =>
      rw [createCompute_hit E m k i h hf]
      refine ⟨hnd, requests_same _ _ R k hmem (Or.inl ?_)⟩
      by_contra hk
      rw [(findCompute_none_iff E _ k).2 hk] at hf
      cases hf
    | none =>
      rw [createCompute_miss E m k h hf]
      simp only [List.map_append, List.map_cons, List.map_nil]
      exact requests_insert _ _ R k hnd hmem ((findCompute_none_iff E _ k).1 hf) h

theorem createGraphics_requests (E : Env) (m : DxvkPipelineManager)
    (k : DxvkGraphicsPipelineShaders) (R : List DxvkGraphicsPipelineShaders)
    (hnd : (m.m_graphicsPipelines.map Prod.fst).Nodup)
    (hmem : ∀ x, x ∈ m.m_graphicsPipelines.map Prod.fst ↔ x ∈ R ∧ x.vs.ptr ≠ 0) :
    ((m.createGraphicsPipeline E k).2.m_graphicsPipelines.map Prod.fst).Nodup ∧
    ∀ x, x ∈ (m.createGraphicsPipeline E k).2.m_graphicsPipelines.map Prod.fst
      ↔ x ∈ R ++ [k] ∧ x.vs.ptr ≠ 0 := by
  by_cases h : k.vs.ptr = 0
  · rw [createGraphics_null E m k h]
    exact ⟨hnd, requests_same _ _ R k hmem (Or.inr (not_not.2 h))⟩
  · cases hf : umapFind (DxvkPipelineKeyHash.applyGraphics E)
        DxvkPipelineKeyEq.applyGraphics m.m_graphicsPipelines k with
    | some i =>
      rw [createGraphics_hit E m k i h hf]
      refine ⟨hnd, requests_same _ _ R k hmem (Or.inl ?_)⟩
      by_contra hk
      rw [(findGraphics_none_iff E _ k).2 hk] at hf
      cases hf
    | none =>
      rw [createGraphics_miss E m k h hf]
      simp only [List.map_append, List.map_cons, List.map_nil]
      exact requests_insert _ _ R k hnd hmem ((findGraphics_none_iff E _ k).1 hf) h

theorem step_requests (E : Env) (m : DxvkPipelineManager) (op : Op)
    (RC : List DxvkComputePipelineShaders) (RG : List DxvkGraphicsPipelineShaders)
    (hC : (m.m_computePipelines.map Prod.fst).Nodup ∧
      ∀ x, x ∈ m.m_computePipelines.map Prod.fst ↔ x ∈ RC ∧ x.cs.ptr ≠ 0)
    (hG : (m.m_graphicsPipelines.map Prod.fst).Nodup ∧
      ∀ x, x ∈ m.m_graphicsPipelines.map Prod.fst ↔ x ∈ RG ∧ x.vs.ptr ≠ 0) :
    (((m.step E op).m_computePipelines.map Prod.fst).Nodup ∧
      ∀ x, x ∈ (m.step E op).m_computePipelines.map Prod.fst
        ↔ x ∈ RC ++ computeRequests [op] ∧ x.cs.ptr ≠ 0) ∧
    (((m.step E op).m_graphicsPipelines.map Prod.fst).Nodup ∧
      ∀ x, x ∈ (m.step E op).m_graphicsPipelines.map Prod.fst
        ↔ x ∈ RG ++ graphicsRequests [op] ∧ x.vs.ptr ≠ 0) := by
  cases op with
  | createCompute k =>
    have hf := (createCompute_frame E m k).2.1
    refine ⟨createCompute_requests E m k RC hC.1 hC.2, ?_⟩
    simp only [DxvkPipelineManager.step, hf, graphicsRequests, List.filterMap_cons,
      List.filterMap_nil, List.append_nil]
    exact hG
  | createGraphics k =>
    have hf := (createGraphics_frame E m k).2.1
    refine ⟨?_, createGraphics_requests E m k RG hG.1 hG.2⟩
    simp only [DxvkPipelineManager.step, hf, computeRequests, List.filterMap_cons,
      List.filterMap_nil, List.append_nil]
    exact hC
  | registerShader s =>
    have hf := registerShader_frame m s
    simp only [DxvkPipelineManager.step, hf.1, hf.2.1, computeRequests, graphicsRequests,
      List.filterMap_cons, List.filterMap_nil, List.append_nil]
    exact ⟨hC, hG⟩
  | getPipelineCount =>
    simp only [DxvkPipelineManager.step, computeRequests, graphicsRequests,
      List.filterMap_cons, List.filterMap_nil, List.append_nil]
    exact ⟨hC, hG⟩
  | isCompilingShaders =>
    simp only [DxvkPipelineManager.step, computeRequests, graphicsRequests,
      List.filterMap_cons, List.filterMap_nil, List.append_nil]
    exact ⟨hC, hG⟩

theorem computeRequests_cons (op : Op) (ops : List Op) :
    computeRequests (op :: ops) = computeRequests [op] ++ computeRequests ops := by
  cases op <;> simp [computeRequests, List.filterMap_cons]

theorem graphicsRequests_cons (op : Op) (ops : List Op) :
    graphicsRequests (op :: ops) = graphicsRequests [op] ++ graphicsRequests ops := by
  cases op <;> simp [graphicsRequests, List.filterMap_cons]

theorem run_requests (E : Env) (ops : List Op) : ∀ (m : DxvkPipelineManager)
    (RC : List DxvkComputePipelineShaders) (RG : List DxvkGraphicsPipelineShaders),
    ((m.m_computePipelines.map Prod.fst).Nodup ∧
      ∀ x, x ∈ m.m_computePipelines.map Prod.fst ↔ x ∈ RC ∧ x.cs.ptr ≠ 0) →
    ((m.m_graphicsPipelines.map Prod.fst).Nodup ∧
      ∀ x, x ∈ m.m_graphicsPipelines.map Prod.fst ↔ x ∈ RG ∧ x.vs.ptr ≠ 0) →
    (((m.run E ops).m_computePipelines.map Prod.fst).Nodup ∧
      ∀ x, x ∈ (m.run E ops).m_computePipelines.map Prod.fst
        ↔ x ∈ RC ++ computeRequests ops ∧ x.cs.ptr ≠ 0) ∧
    (((m.run E ops).m_graphicsPipelines.map Prod.fst).Nodup ∧
      ∀ x, x ∈ (m.run E ops).m_graphicsPipelines.map Prod.fst
        ↔ x ∈ RG ++ graphicsRequests ops ∧ x.vs.ptr ≠ 0) := by
  induction ops with
  | nil =>
    intro m RC RG hC hG
    simp only [DxvkPipelineManager.run, List.foldl_nil, computeRequests, graphicsRequests,
      List.filterMap_nil, List.append_nil]
    exact ⟨hC, hG⟩
  | cons op ops ih =>
    intro m RC RG hC hG
    have hs := step_requests E m op RC RG hC hG
    have hr := ih (m.step E op) _ _ hs.1 hs.2
    rw [computeRequests_cons, graphicsRequests_cons, ← List.append_assoc,
      ← List.append_assoc]
    simp only [DxvkPipelineManager.run, List.foldl_cons] at hr ⊢
    exact hr

theorem nodup_keys_length {K V : Type} [DecidableEq K] (es : List (K × V)) (R : List K)
    (valid : K → Bool) (hnd : (es.map Prod.fst).Nodup)
    (hmem : ∀ x, x ∈ es.map Prod.fst ↔ x ∈ R ∧ valid x = true) :
    es.length = (R.filter valid).toFinset.card := by
  have h1 : (es.map Prod.fst).toFinset = (R.filter valid).toFinset := by
    ext x
    simp only [List.mem_toFinset, hmem x, List.mem_filter]
  rw [← h1, List.toFinset_card_of_nodup hnd, List.length_map]

/-- C6: starting from a freshly constructed manager, after any sequence of operations
no two nodes of a mapping have keys that are equal under `DxvkPipelineKeyEq`, and the
number of nodes of a mapping, that is of pipeline objects constructed for the kind
(one per node, by the one `emplace` that creates the node), is the number of distinct
keys with the mandatory shader present that the create calls of that kind requested. -/
theorem one_pipeline_per_key (E : Env) (useStateCache : String) (enableStateCache : Bool)
    (ops : List Op) :
    List.Pairwise (fun x y => DxvkPipelineKeyEq.applyCompute x.1 y.1 = false)
      ((DxvkPipelineManager.create useStateCache enableStateCache).run E
        ops).m_computePipelines ∧
    List.Pairwise (fun x y => DxvkPipelineKeyEq.applyGraphics x.1 y.1 = false)
      ((DxvkPipelineManager.create useStateCache enableStateCache).run E
        ops).m_graphicsPipelines ∧
    ((DxvkPipelineManager.create useStateCache enableStateCache).run E
        ops).m_computePipelines.length
      = ((computeRequests ops).filter (fun k => !k.cs.isNull)).toFinset.card ∧
    ((DxvkPipelineManager.create useStateCache enableStateCache).run E
        ops).m_graphicsPipelines.length
      = ((graphicsRequests ops).filter (fun k => !k.vs.isNull)).toFinset.card := by
  have h := run_requests E ops (DxvkPipelineManager.create useStateCache enableStateCache)
    [] [] (by simp [DxvkPipelineManager.create]) (by simp [DxvkPipelineManager.create])
  simp only [List.nil_append] at h
  obtain ⟨⟨hnC, hmC⟩, ⟨hnG, hmG⟩⟩ := h
  refine ⟨?_, ?_, ?_, ?_⟩
  · have := List.pairwise_map.1 hnC
    refine this.imp ?_
    intro a b hab
    cases hk : DxvkPipelineKeyEq.applyCompute a.1 b.1 with
    | false => rfl
    | true => exact absurd ((keyEq_compute_iff _ _).1 hk) hab
  · have := List.pairwise_map.1 hnG
    refine this.imp ?_
    intro a b hab
    cases hk : DxvkPipelineKeyEq.applyGraphics a.1 b.1 with
    | false => rfl
    | true => exact absurd ((keyEq_graphics_iff _ _).1 hk) hab
  · refine nodup_keys_length _ _ _ hnC ?_
    intro x
    rw [hmC x]
    simp [Rc.isNull]
  · refine nodup_keys_length _ _ _ hnG ?_
    intro x
    rw [hmG x]
    simp [Rc.isNull]

/-! ## The counters -/

theorem createCompute_count (E : Env) (m : DxvkPipelineManager)
    (k : DxvkComputePipelineShaders) :
    (m.createComputePipeline E k).2.m_numComputePipelines
      = m.m_numComputePipelines
        + (if k.cs.ptr ≠ 0 ∧ k ∉ m.m_computePipelines.map Prod.fst then 1 else 0) ∧
    (m.createComputePipeline E k).2.m_numGraphicsPipelines = m.m_numGraphicsPipelines := by
  by_cases h : k.cs.ptr = 0
  · rw [createCompute_null E m k h]; simp [h]
  · cases hf : umapFind (DxvkPipelineKeyHash.applyCompute E)
        DxvkPipelineKeyEq.applyCompute m.m_computePipelines k with
    | some i =>
      have hk : ¬ k ∉ m.m_computePipelines.map Prod.fst := by
        intro hk
        rw [(findCompute_none_iff E _ k).2 hk] at hf
        cases hf
      rw [createCompute_hit E m k i h hf]
      simp only [hk, and_false, if_false, Nat.add_zero, and_self]
    | none =>
      have hk := (findCompute_none_iff E _ k).1 hf
      rw [createCompute_miss E m k h hf]
      simp only [ne_eq, h, not_false_eq_true, hk, and_self, if_true]

theorem createGraphics_count (E : Env) (m : DxvkPipelineManager)
    (k : DxvkGraphicsPipelineShaders) :
    (m.createGraphicsPipeline E k).2.m_numGraphicsPipelines
      = m.m_numGraphicsPipelines
        + (if k.vs.ptr ≠ 0 ∧ k ∉ m.m_graphicsPipelines.map Prod.fst then 1 else 0) ∧
    (m.createGraphicsPipeline E k).2.m_numComputePipelines = m.m_numComputePipelines := by
  by_cases h : k.vs.ptr = 0
  · rw [createGraphics_null E m k h]; simp [h]
  · cases hf : umapFind (DxvkPipelineKeyHash.applyGraphics E)
        DxvkPipelineKeyEq.applyGraphics m.m_graphicsPipelines k with
    | some i =>
      have hk : ¬ k ∉ m.m_graphicsPipelines.map Prod.fst := by
        intro hk
        rw [(findGraphics_none_iff E _ k).2 hk] at hf
        cases hf
      rw [createGraphics_hit E m k i h hf]
      simp only [hk, and_false, if_false, Nat.add_zero, and_self]
    | none =>
      have hk := (findGraphics_none_iff E _ k).1 hf
      rw [createGraphics_miss E m k h hf]
      simp only [ne_eq, h, not_false_eq_true, hk, and_self, if_true]

theorem step_count_le (E : Env) (m : DxvkPipelineManager) (op : Op) :
    m.m_numComputePipelines ≤ (m.step E op).m_numComputePipelines ∧
    m.m_numGraphicsPipelines ≤ (m.step E op).m_numGraphicsPipelines := by
  cases op with
  | createCompute k =>
    have h := createCompute_count E m k
    simp only [DxvkPipelineManager.step, h.1, h.2]
    exact ⟨Nat.le_add_right _ _, Nat.le_refl _⟩
  | createGraphics k =>
    have h := createGraphics_count E m k
    simp only [DxvkPipelineManager.step, h.1, h.2]
    exact ⟨Nat.le_refl _, Nat.le_add_right _ _⟩
  | registerShader s =>
    have h := registerShader_frame m s
    simp only [DxvkPipelineManager.step, h.2.2.1, h.2.2.2]
    exact ⟨Nat.le_refl _, Nat.le_refl _⟩
  | getPipelineCount => exact ⟨Nat.le_refl _, Nat.le_refl _⟩
  | isCompilingShaders => exact ⟨Nat.le_refl _, Nat.le_refl _⟩

theorem run_count_le (E : Env) (ops : List Op) : ∀ m : DxvkPipelineManager,
    m.m_numComputePipelines ≤ (m.run E ops).m_numComputePipelines ∧
    m.m_numGraphicsPipelines ≤ (m.run E ops).m_numGraphicsPipelines := by
  induction ops with
  | nil => intro m; exact ⟨Nat.le_refl _, Nat.le_refl _⟩
  | cons op ops ih =>
    intro m
    have h1 := step_count_le E m op
    have h2 := ih (m.step E op)
    simp only [DxvkPipelineManager.run, List.foldl_cons] at h2 ⊢
    exact ⟨Nat.le_trans h1.1 h2.1, Nat.le_trans h1.2 h2.2⟩

theorem scenario_count (E : Env) (useStateCache : String) (enableStateCache : Bool)
    (S1 S2 S3 : Rc) (h1 : S1.ptr ≠ 0) (h23 : S2 ≠ S3) :
    ((DxvkPipelineManager.create useStateCache enableStateCache).run E
      [Op.createGraphics ⟨S1, Rc.null, Rc.null, Rc.null, S2⟩,
       Op.createGraphics ⟨S1, Rc.null, Rc.null, Rc.null, S2⟩,
       Op.createGraphics ⟨S1, Rc.null, Rc.null, Rc.null, S3⟩]).m_numGraphicsPipelines
      = 2 := by
  have hne : (⟨S1, Rc.null, Rc.null, Rc.null, S3⟩ : DxvkGraphicsPipelineShaders)
      ≠ ⟨S1, Rc.null, Rc.null, Rc.null, S2⟩ := by
    intro h
    cases h
    exact h23 rfl
  have hk := (keyEq_graphics_iff ⟨S1, Rc.null, Rc.null, Rc.null, S2⟩
    ⟨S1, Rc.null, Rc.null, Rc.null, S3⟩)
  have hk2 : DxvkPipelineKeyEq.applyGraphics ⟨S1, Rc.null, Rc.null, Rc.null, S2⟩
      ⟨S1, Rc.null, Rc.null, Rc.null, S3⟩ = false := by
    cases hb : DxvkPipelineKeyEq.applyGraphics ⟨S1, Rc.null, Rc.null, Rc.null, S2⟩
      ⟨S1, Rc.null, Rc.null, Rc.null, S3⟩ with
    | false => rfl
    | true => exact absurd (hk.1 hb).symm hne
  have hk3 := (keyEq_graphics_iff ⟨S1, Rc.null, Rc.null, Rc.null, S2⟩
    ⟨S1, Rc.null, Rc.null, Rc.null, S2⟩).2 rfl
  simp [DxvkPipelineManager.run, DxvkPipelineManager.step,
    DxvkPipelineManager.createGraphicsPipeline, DxvkPipelineManager.create, umapFind,
    Rc.isNull, h1, DxvkGraphicsPipeline.construct, hk2, hk3]

/-- C7: with the pipeline constructors counting as the spec describes, each count
returned by `getPipelineCount` never decreases over a sequence of operations; a create
call raises the count of its kind by exactly one when the mandatory shader is present
and no node holds the key, and by zero when a node holds the key or the key is
rejected; and on a fresh manager `createGraphics({vs: S1, fs: S2})`, the same call
again, then `createGraphics({vs: S1, fs: S3})` with `S3` another object than `S2`
leave `numGraphicsPipelines` at 2. -/
theorem pipeline_count_tracks_new_keys (E : Env) (m : DxvkPipelineManager)
    (ops : List Op) (c : DxvkComputePipelineShaders) (g : DxvkGraphicsPipelineShaders)
    (useStateCache : String) (enableStateCache : Bool) (S1 S2 S3 : Rc)
    (h1 : S1.ptr ≠ 0) (h23 : S2 ≠ S3) :
    (m.getPipelineCount.numComputePipelines
        ≤ (m.run E ops).getPipelineCount.numComputePipelines ∧
      m.getPipelineCount.numGraphicsPipelines
        ≤ (m.run E ops).getPipelineCount.numGraphicsPipelines) ∧
    (m.createComputePipeline E c).2.getPipelineCount.numComputePipelines
      = m.getPipelineCount.numComputePipelines
        + (if c.cs.ptr ≠ 0 ∧ c ∉ m.m_computePipelines.map Prod.fst then 1 else 0) ∧
    (m.createGraphicsPipeline E g).2.getPipelineCount.numGraphicsPipelines
      = m.getPipelineCount.numGraphicsPipelines
        + (if g.vs.ptr ≠ 0 ∧ g ∉ m.m_graphicsPipelines.map Prod.fst then 1 else 0) ∧
    ((DxvkPipelineManager.create useStateCache enableStateCache).run E
      [Op.createGraphics ⟨S1, Rc.null, Rc.null, Rc.null, S2⟩,
       Op.createGraphics ⟨S1, Rc.null, Rc.null, Rc.null, S2⟩,
       Op.createGraphics ⟨S1, Rc.null, Rc.null, Rc.null,
         S3⟩]).getPipelineCount.numGraphicsPipelines = 2 :=
  ⟨run_count_le E ops m, (createCompute_count E m c).1, (createGraphics_count E m g).1,
   scenario_count E useStateCache enableStateCache S1 S2 S3 h1 h23⟩

/-- Witness of C7: the example manager with one graphics node, a sequence of five
operations, and the shader objects at 4096, 8192 and 12288 for the scenario. -/
theorem pipeline_count_tracks_new_keys_witness :
    ((4096 ≠ 0) ∧ (⟨8192⟩ : Rc) ≠ ⟨12288⟩) ∧
    ((DxvkPipelineManager.create "0" true).run exampleEnv
      [Op.createGraphics ⟨⟨4096⟩, Rc.null, Rc.null, Rc.null, ⟨8192⟩⟩,
       Op.createGraphics ⟨⟨4096⟩, Rc.null, Rc.null, Rc.null, ⟨8192⟩⟩,
       Op.createGraphics ⟨⟨4096⟩, Rc.null, Rc.null, Rc.null,
         ⟨12288⟩⟩]).getPipelineCount.numGraphicsPipelines = 2 :=
  ⟨⟨by decide, by decide⟩,
   (pipeline_count_tracks_new_keys exampleEnv
     (exampleManager.createGraphicsPipeline exampleEnv
       ⟨⟨4096⟩, ⟨0⟩, ⟨0⟩, ⟨0⟩, ⟨8192⟩⟩).2
     [Op.createCompute ⟨⟨8192⟩⟩, Op.createGraphics ⟨⟨8192⟩, ⟨0⟩, ⟨0⟩, ⟨0⟩, ⟨4096⟩⟩,
      Op.registerShader ⟨4096⟩, Op.getPipelineCount, Op.isCompilingShaders]
     ⟨⟨4096⟩⟩ ⟨⟨4096⟩, ⟨0⟩, ⟨0⟩, ⟨0⟩, ⟨8192⟩⟩ "0" true ⟨4096⟩ ⟨8192⟩ ⟨12288⟩
     (by decide) (by decide)).2.2.2⟩

/-! ## The key hasher -/

theorem getShaderHash_eq_spec (E : Env) (shader : Rc) :
    DxvkPipelineKeyHash.getShaderHash E shader = specSlotHash E shader := by
  cases shader with
  | mk p => cases p <;> simp [DxvkPipelineKeyHash.getShaderHash, specSlotHash]

/-- Whatever `std::hash<DxvkShader*>` is, there is a shader object whose content hash
the compute key hash does not return. -/
theorem applyCompute_ne_content (stdHash : Nat → Nat) :
    ∃ E : Env, E.stdHash = stdHash ∧
      DxvkPipelineKeyHash.applyCompute E ⟨⟨4096⟩⟩
        ≠ DxvkPipelineKeyHash.getShaderHash E ⟨4096⟩ := by
  refine ⟨{ exampleEnv with stdHash := stdHash, getHash := fun _ => stdHash 4096 + 1 },
    rfl, ?_⟩
  simp [DxvkPipelineKeyHash.applyCompute, DxvkPipelineKeyHash.getShaderHash]

/-- C8, as stated, fails: in the example environment the compute key of the shader
object at 4096, whose content hash is 7, hashes to `std::hash` of its address, 4096;
and the keys of the objects at 4096 and 8192, which share the content hash 7, have
different hash values. -/
theorem compute_hash_not_content_hash :
    DxvkPipelineKeyHash.applyCompute exampleEnv ⟨⟨4096⟩⟩ = 4096 ∧
    DxvkPipelineKeyHash.getShaderHash exampleEnv ⟨4096⟩ = 7 ∧
    DxvkPipelineKeyHash.getShaderHash exampleEnv ⟨8192⟩ = 7 ∧
    DxvkPipelineKeyHash.applyCompute exampleEnv ⟨⟨4096⟩⟩
      ≠ DxvkPipelineKeyHash.applyCompute exampleEnv ⟨⟨8192⟩⟩ := by
  decide

/-- C8, amended: for every compute key `DxvkPipelineKeyHash` returns
`std::hash<DxvkShader*>` of the address the compute slot holds (of the null pointer
when the shader is absent); it reads no content hash, so replacing every shader's
content hash leaves it unchanged; consequently two compute keys holding the same
shader object have the same hash value. -/
theorem compute_hash_is_pointer_hash (E : Env) (getHash2 : Nat → Nat)
    (a b : DxvkComputePipelineShaders) (hab : a.cs.ptr = b.cs.ptr) :
    DxvkPipelineKeyHash.applyCompute E a = E.stdHash a.cs.ptr ∧
    DxvkPipelineKeyHash.applyCompute { E with getHash := getHash2 } a
      = DxvkPipelineKeyHash.applyCompute E a ∧
    DxvkPipelineKeyHash.applyCompute E a = DxvkPipelineKeyHash.applyCompute E b := by
  refine ⟨rfl, rfl, ?_⟩
  simp [DxvkPipelineKeyHash.applyCompute, hab]

/-- Witness of the amended C8: two keys built from the shader object at 4096. -/
theorem compute_hash_is_pointer_hash_witness :
    DxvkPipelineKeyHash.applyCompute exampleEnv ⟨⟨4096⟩⟩ = exampleEnv.stdHash 4096 ∧
    DxvkPipelineKeyHash.applyCompute { exampleEnv with getHash := fun _ => 0 } ⟨⟨4096⟩⟩
      = DxvkPipelineKeyHash.applyCompute exampleEnv ⟨⟨4096⟩⟩ ∧
    DxvkPipelineKeyHash.applyCompute exampleEnv ⟨⟨4096⟩⟩
      = DxvkPipelineKeyHash.applyCompute exampleEnv ⟨⟨4096⟩⟩ :=
  compute_hash_is_pointer_hash exampleEnv (fun _ => 0) ⟨⟨4096⟩⟩ ⟨⟨4096⟩⟩ rfl

/-- C9: for every graphics key `DxvkPipelineKeyHash` is the value of a fresh hash
accumulator after adding, in the order vertex, tess-control, tess-eval, geometry,
fragment, each slot's content hash with zero for an absent slot; so two graphics keys
whose slots have pairwise equal content hashes (absent counting as zero) have equal
hash values, whichever shader objects they hold. -/
theorem graphics_hash_of_content_hashes (E : Env) (a b : DxvkGraphicsPipelineShaders)
    (hvs : specSlotHash E a.vs = specSlotHash E b.vs)
    (htcs : specSlotHash E a.tcs = specSlotHash E b.tcs)
    (htes : specSlotHash E a.tes = specSlotHash E b.tes)
    (hgs : specSlotHash E a.gs = specSlotHash E b.gs)
    (hfs : specSlotHash E a.fs = specSlotHash E b.fs) :
    DxvkPipelineKeyHash.applyGraphics E a = specGraphicsHash E a ∧
    DxvkPipelineKeyHash.applyGraphics E a = DxvkPipelineKeyHash.applyGraphics E b := by
  have hs : ∀ k, DxvkPipelineKeyHash.applyGraphics E k = specGraphicsHash E k := by
    intro k
    simp [DxvkPipelineKeyHash.applyGraphics, specGraphicsHash, getShaderHash_eq_spec]
  refine ⟨hs a, ?_⟩
  rw [hs a, hs b]
  simp [specGraphicsHash, hvs, htcs, htes, hgs, hfs]

/-- Witness of C9: two graphics keys with the same vertex shader and, in the fragment
slot, the distinct shader objects at 4096 and 8192, which share the content hash 7. -/
theorem graphics_hash_of_content_hashes_witness :
    ((⟨4096⟩ : Rc) ≠ ⟨8192⟩ ∧
      specSlotHash exampleEnv ⟨4096⟩ = specSlotHash exampleEnv ⟨8192⟩) ∧
    DxvkPipelineKeyHash.applyGraphics exampleEnv ⟨⟨4097⟩, ⟨0⟩, ⟨0⟩, ⟨0⟩, ⟨4096⟩⟩
      = specGraphicsHash exampleEnv ⟨⟨4097⟩, ⟨0⟩, ⟨0⟩, ⟨0⟩, ⟨4096⟩⟩ ∧
    DxvkPipelineKeyHash.applyGraphics exampleEnv ⟨⟨4097⟩, ⟨0⟩, ⟨0⟩, ⟨0⟩, ⟨4096⟩⟩
      = DxvkPipelineKeyHash.applyGraphics exampleEnv ⟨⟨4097⟩, ⟨0⟩, ⟨0⟩, ⟨0⟩, ⟨8192⟩⟩ :=
  ⟨⟨by decide, by decide⟩,
   graphics_hash_of_content_hashes exampleEnv ⟨⟨4097⟩, ⟨0⟩, ⟨0⟩, ⟨0⟩, ⟨4096⟩⟩
     ⟨⟨4097⟩, ⟨0⟩, ⟨0⟩, ⟨0⟩, ⟨8192⟩⟩ rfl rfl rfl rfl (by decide)⟩

/-! ## Shader registration -/

/-- C10: when a state cache is configured, `registerShader` hands it the notification
exactly once and with the same shader (the notifications the cache has received grow
by that one shader at the end, its busy flag is untouched), and a second registration
of the same shader is handed over again; when none is configured the manager is
unchanged; in both cases the two mappings and the two counters are unchanged. -/
theorem registerShader_forwards (m m0 : DxvkPipelineManager) (shader : Rc)
    (cache : DxvkStateCache) (hc : m.m_stateCache = some cache)
    (h0 : m0.m_stateCache = none) :
    (m.registerShader shader).m_stateCache
      = some { registered := cache.registered ++ [shader], compiling := cache.compiling } ∧
    ((m.registerShader shader).registerShader shader).m_stateCache
      = some { registered := cache.registered ++ [shader, shader],
               compiling := cache.compiling } ∧
    m0.registerShader shader = m0 ∧
    ((m.registerShader shader).m_computePipelines = m.m_computePipelines ∧
      (m.registerShader shader).m_graphicsPipelines = m.m_graphicsPipelines ∧
      (m.registerShader shader).m_numComputePipelines = m.m_numComputePipelines ∧
      (m.registerShader shader).m_numGraphicsPipelines = m.m_numGraphicsPipelines) := by
  refine ⟨?_, ?_, ?_, registerShader_frame m shader⟩
  · simp [DxvkPipelineManager.registerShader, hc, DxvkStateCache.registerShader]
  · simp [DxvkPipelineManager.registerShader, hc, DxvkStateCache.registerShader]
  · simp [DxvkPipelineManager.registerShader, h0]

/-- Witness of C10: a manager constructed with the state cache enabled, and the example
manager, which has none. -/
theorem registerShader_forwards_witness :
    ((DxvkPipelineManager.create "" true).m_stateCache
        = some { registered := [], compiling := false } ∧
      exampleManager.m_stateCache = none) ∧
    ((DxvkPipelineManager.create "" true).registerShader ⟨4096⟩).m_stateCache
      = some { registered := [] ++ [⟨4096⟩], compiling := false } ∧
    (((DxvkPipelineManager.create "" true).registerShader ⟨4096⟩).registerShader
        ⟨4096⟩).m_stateCache
      = some { registered := [] ++ [⟨4096⟩, ⟨4096⟩], compiling := false } ∧
    exampleManager.registerShader ⟨4096⟩ = exampleManager :=
  ⟨⟨by decide, by decide⟩,
   (registerShader_forwards (DxvkPipelineManager.create "" true) exampleManager ⟨4096⟩
     { registered := [], compiling := false } (by decide) (by decide)).1,
   (registerShader_forwards (DxvkPipelineManager.create "" true) exampleManager ⟨4096⟩
     { registered := [], compiling := false } (by decide) (by decide)).2.1,
   (registerShader_forwards (DxvkPipelineManager.create "" true) exampleManager ⟨4096⟩
     { registered := [], compiling := false } (by decide) (by decide)).2.2.1⟩

/-! ## Queries, construction, and the frame of the create operations -/

/-- C11: `isCompilingShaders` returns false for a manager without state cache, and for
a manager with one exactly what the state cache reports; as a `const` query it leaves
the manager as it is. -/
theorem isCompilingShaders_reports_cache (E : Env) (m m0 : DxvkPipelineManager)
    (cache : DxvkStateCache) (hc : m.m_stateCache = some cache)
    (h0 : m0.m_stateCache = none) :
    m0.isCompilingShaders = false ∧
    m.isCompilingShaders = cache.isCompilingShaders ∧
    m.step E Op.isCompilingShaders = m ∧
    m0.step E Op.isCompilingShaders = m0 := by
  refine ⟨?_, ?_, rfl, rfl⟩
  · simp [DxvkPipelineManager.isCompilingShaders, h0]
  · simp [DxvkPipelineManager.isCompilingShaders, hc]

/-- Witness of C11: a manager whose state cache is compiling, and the example manager,
which has no state cache. -/
theorem isCompilingShaders_reports_cache_witness :
    exampleManager.isCompilingShaders = false ∧
    exampleBusyManager.isCompilingShaders = true ∧
    exampleBusyManager.step exampleEnv Op.isCompilingShaders = exampleBusyManager ∧
    exampleManager.step exampleEnv Op.isCompilingShaders = exampleManager :=
  isCompilingShaders_reports_cache exampleEnv exampleBusyManager exampleManager
    { registered := [⟨4096⟩], compiling := true } rfl rfl

/-- C12: the constructor creates the state cache exactly when `DXVK_STATE_CACHE` is
not set to "0" (unset and every other value count as enabled) and the device's
`enableStateCache` is true; both mappings start empty. -/
theorem constructor_state_cache_iff (value : Option String) (enableStateCache : Bool) :
    ((DxvkPipelineManager.create (env.getEnvVar value) enableStateCache).m_stateCache.isSome
        = true ↔ value ≠ some "0" ∧ enableStateCache = true) ∧
    (DxvkPipelineManager.create (env.getEnvVar value) enableStateCache).m_computePipelines
      = [] ∧
    (DxvkPipelineManager.create (env.getEnvVar value) enableStateCache).m_graphicsPipelines
      = [] := by
  refine ⟨?_, rfl, rfl⟩
  cases value with
  | none =>
    have h : ("" : String) ≠ "0" := by decide
    cases enableStateCache <;> simp [DxvkPipelineManager.create, env.getEnvVar, h]
  | some v =>
    by_cases hv : v = "0"
    · cases enableStateCache <;> simp [DxvkPipelineManager.create, env.getEnvVar, hv]
    · cases enableStateCache <;> simp [DxvkPipelineManager.create, env.getEnvVar, hv]

/-- C15: the key hasher is consistent with key equality.  For two compute keys and for
two graphics keys, if `DxvkPipelineKeyEq` is true then `DxvkPipelineKeyHash` gives the
same value on both, for every environment, that is for every way of assigning a
content hash to each shader object. -/
theorem keyHash_consistent_with_keyEq (E : Env) (a b : DxvkComputePipelineShaders)
    (c d : DxvkGraphicsPipelineShaders)
    (hab : DxvkPipelineKeyEq.applyCompute a b = true)
    (hcd : DxvkPipelineKeyEq.applyGraphics c d = true) :
    DxvkPipelineKeyHash.applyCompute E a = DxvkPipelineKeyHash.applyCompute E b ∧
    DxvkPipelineKeyHash.applyGraphics E c = DxvkPipelineKeyHash.applyGraphics E d := by
  rw [keyEq_compute_iff] at hab
  rw [keyEq_graphics_iff] at hcd
  subst hab
  subst hcd
  exact ⟨rfl, rfl⟩

/-- Witness of C15: the compute key of the shader at 4096 and a graphics key, each
compared with a second key built from the same objects. -/
theorem keyHash_consistent_with_keyEq_witness :
    (DxvkPipelineKeyEq.applyCompute ⟨⟨4096⟩⟩ ⟨⟨4096⟩⟩ = true ∧
      DxvkPipelineKeyEq.applyGraphics ⟨⟨4096⟩, ⟨0⟩, ⟨0⟩, ⟨0⟩, ⟨8192⟩⟩
        ⟨⟨4096⟩, ⟨0⟩, ⟨0⟩, ⟨0⟩, ⟨8192⟩⟩ = true) ∧
    DxvkPipelineKeyHash.applyCompute exampleEnv ⟨⟨4096⟩⟩
      = DxvkPipelineKeyHash.applyCompute exampleEnv ⟨⟨4096⟩⟩ ∧
    DxvkPipelineKeyHash.applyGraphics exampleEnv ⟨⟨4096⟩, ⟨0⟩, ⟨0⟩, ⟨0⟩, ⟨8192⟩⟩
      = DxvkPipelineKeyHash.applyGraphics exampleEnv ⟨⟨4096⟩, ⟨0⟩, ⟨0⟩, ⟨0⟩, ⟨8192⟩⟩ :=
  ⟨⟨by decide, by decide⟩,
   keyHash_consistent_with_keyEq exampleEnv ⟨⟨4096⟩⟩ ⟨⟨4096⟩⟩
     ⟨⟨4096⟩, ⟨0⟩, ⟨0⟩, ⟨0⟩, ⟨8192⟩⟩ ⟨⟨4096⟩, ⟨0⟩, ⟨0⟩, ⟨0⟩, ⟨8192⟩⟩
     (by decide) (by decide)⟩

theorem createCompute_map_cases (E : Env) (m : DxvkPipelineManager)
    (k : DxvkComputePipelineShaders) :
    (m.createComputePipeline E k).2.m_computePipelines = m.m_computePipelines ∨
    ∃ obj, (m.createComputePipeline E k).2.m_computePipelines
      = m.m_computePipelines ++ [(k, obj)] := by
  by_cases h : k.cs.ptr = 0
  · rw [createCompute_null E m k h]; exact Or.inl rfl
  · cases hf : umapFind (DxvkPipelineKeyHash.applyCompute E)
        DxvkPipelineKeyEq.applyCompute m.m_computePipelines k with
    | some i => rw [createCompute_hit E m k i h hf]; exact Or.inl rfl
    | none => rw [createCompute_miss E m k h hf]; exact Or.inr ⟨_, rfl⟩

theorem createGraphics_map_cases (E : Env) (m : DxvkPipelineManager)
    (k : DxvkGraphicsPipelineShaders) :
    (m.createGraphicsPipeline E k).2.m_graphicsPipelines = m.m_graphicsPipelines ∨
    ∃ obj, (m.createGraphicsPipeline E k).2.m_graphicsPipelines
      = m.m_graphicsPipelines ++ [(k, obj)] := by
  by_cases h : k.vs.ptr = 0
  · rw [createGraphics_null E m k h]; exact Or.inl rfl
  · cases hf : umapFind (DxvkPipelineKeyHash.applyGraphics E)
        DxvkPipelineKeyEq.applyGraphics m.m_graphicsPipelines k with
    | some i => rw [createGraphics_hit E m k i h hf]; exact Or.inl rfl
    | none => rw [createGraphics_miss E m k h hf]; exact Or.inr ⟨_, rfl⟩

/-- C16: the two mappings are independent.  For every manager and key,
`createComputePipeline` leaves the graphics mapping and the state cache as they are,
and the compute mapping either as it is or with one node for its key added at the end;
`createGraphicsPipeline` does the same with the roles of the mappings exchanged.  In
both cases every node that was there before is still there, at its position and with
its key and object. -/
theorem create_touches_own_mapping_only (E : Env) (m : DxvkPipelineManager)
    (c : DxvkComputePipelineShaders) (g : DxvkGraphicsPipelineShaders) :
    ((m.createComputePipeline E c).2.m_graphicsPipelines = m.m_graphicsPipelines ∧
      (m.createComputePipeline E c).2.m_stateCache = m.m_stateCache ∧
      ((m.createComputePipeline E c).2.m_computePipelines = m.m_computePipelines ∨
        ∃ obj, (m.createComputePipeline E c).2.m_computePipelines
          = m.m_computePipelines ++ [(c, obj)]) ∧
      ∀ i, i < m.m_computePipelines.length →
        (m.createComputePipeline E c).2.m_computePipelines[i]? = m.m_computePipelines[i]?) ∧
    ((m.createGraphicsPipeline E g).2.m_computePipelines = m.m_computePipelines ∧
      (m.createGraphicsPipeline E g).2.m_stateCache = m.m_stateCache ∧
      ((m.createGraphicsPipeline E g).2.m_graphicsPipelines = m.m_graphicsPipelines ∨
        ∃ obj, (m.createGraphicsPipeline E g).2.m_graphicsPipelines
          = m.m_graphicsPipelines ++ [(g, obj)]) ∧
      ∀ i, i < m.m_graphicsPipelines.length →
        (m.createGraphicsPipeline E g).2.m_graphicsPipelines[i]?
          = m.m_graphicsPipelines[i]?) := by
  have hc := createCompute_frame E m c
  have hg := createGraphics_frame E m g
  refine ⟨⟨hc.2.1, hc.2.2, createCompute_map_cases E m c, ?_⟩,
    ⟨hg.2.1, hg.2.2, createGraphics_map_cases E m g, ?_⟩⟩
  · intro i hi
    obtain ⟨xs, hx⟩ := hc.1
    rw [← hx, List.getElem?_append_left hi]
  · intro i hi
    obtain ⟨xs, hx⟩ := hg.1
    rw [← hx, List.getElem?_append_left hi]

/-! ## `RtxAntiLag` -/

theorem RtxAntiLag.updateMode_fields (a : RtxAntiLag) (newMode : AntiLagMode) :
    (a.updateMode newMode).1.amdAntiLag = a.amdAntiLag ∧
    (a.updateMode newMode).1.m_enabled = a.m_enabled ∧
    (a.updateMode newMode).1.m_initialized = a.m_initialized ∧
    (a.updateMode newMode).1.m_vkAntiLagUpdateAMD = a.m_vkAntiLagUpdateAMD := by
  unfold RtxAntiLag.updateMode
  split
  · exact ⟨rfl, rfl, rfl, rfl⟩
  · split
    · exact ⟨rfl, rfl, rfl, rfl⟩
    · exact ⟨rfl, rfl, rfl, rfl⟩

theorem RtxAntiLag.updateBeforeInput_fst (a : RtxAntiLag) (frameId : Nat) :
    (a.updateBeforeInput frameId).1 = a := by
  unfold RtxAntiLag.updateBeforeInput
  split
  · rfl
  · split <;> rfl

theorem RtxAntiLag.updateBeforePresent_fst (a : RtxAntiLag) (frameId : Nat) :
    (a.updateBeforePresent frameId).1 = a := by
  unfold RtxAntiLag.updateBeforePresent
  split
  · rfl
  · split <;> rfl

theorem RtxAntiLag.step_fields (a : RtxAntiLag) (op : AntiLagOp) :
    (a.step op).1.amdAntiLag = a.amdAntiLag ∧
    (a.step op).1.m_enabled = a.m_enabled ∧
    (a.step op).1.m_initialized = a.m_initialized ∧
    (a.step op).1.m_vkAntiLagUpdateAMD = a.m_vkAntiLagUpdateAMD := by
  cases op with
  | updateMode newMode => exact RtxAntiLag.updateMode_fields a newMode
  | updateBeforeInput frameId =>
    simp only [RtxAntiLag.step, RtxAntiLag.updateBeforeInput_fst, and_self]
  | updateBeforePresent frameId =>
    simp only [RtxAntiLag.step, RtxAntiLag.updateBeforePresent_fst, and_self]

theorem RtxAntiLag.run_fields (ops : List AntiLagOp) : ∀ a : RtxAntiLag,
    (a.run ops).amdAntiLag = a.amdAntiLag ∧
    (a.run ops).m_enabled = a.m_enabled ∧
    (a.run ops).m_initialized = a.m_initialized ∧
    (a.run ops).m_vkAntiLagUpdateAMD = a.m_vkAntiLagUpdateAMD := by
  induction ops with
  | nil => intro a; exact ⟨rfl, rfl, rfl, rfl⟩
  | cons op ops ih =>
    intro a
    have h1 := RtxAntiLag.step_fields a op
    have h2 := ih (a.step op).1
    simp only [RtxAntiLag.run, List.foldl_cons] at h2 ⊢
    exact ⟨h2.1.trans h1.1, h2.2.1.trans h1.2.1, h2.2.2.1.trans h1.2.2.1,
      h2.2.2.2.trans h1.2.2.2⟩

theorem RtxAntiLag.construct_initialized (isAntiLagEnabled : Bool)
    (antiLagMode : AntiLagMode) (amdAntiLag : Bool) (sym : Nat)
    (h : (RtxAntiLag.construct isAntiLagEnabled antiLagMode amdAntiLag sym).1.m_initialized
      = true) :
    (RtxAntiLag.construct isAntiLagEnabled antiLagMode amdAntiLag sym).1.m_enabled = true ∧
    (RtxAntiLag.construct isAntiLagEnabled antiLagMode amdAntiLag sym).1.amdAntiLag = true ∧
    (RtxAntiLag.construct isAntiLagEnabled antiLagMode amdAntiLag sym).1.m_vkAntiLagUpdateAMD
      ≠ 0 := by
  cases isAntiLagEnabled <;> cases amdAntiLag <;> by_cases hs : sym = 0 <;>
    simp_all [RtxAntiLag.construct, RtxAntiLag.antiLagEnabled, RtxAntiLag.updateMode,
      RtxAntiLag.antiLagInitialized]

theorem RtxAntiLag.construct_off (isAntiLagEnabled : Bool)
    (antiLagMode : AntiLagMode) (amdAntiLag : Bool) (sym : Nat) :
    (RtxAntiLag.construct isAntiLagEnabled antiLagMode amdAntiLag sym).1.m_currentAntiLagMode
      = AntiLagMode.Off ∧
    (RtxAntiLag.construct isAntiLagEnabled antiLagMode amdAntiLag sym).2 = [] := by
  cases isAntiLagEnabled <;> cases amdAntiLag <;> by_cases hs : sym = 0 <;>
    simp_all [RtxAntiLag.construct, RtxAntiLag.antiLagEnabled, RtxAntiLag.updateMode,
      RtxAntiLag.antiLagInitialized]

/-- On every object a constructor call and later method calls lead to, an initialized
object holds a driver function. -/
theorem RtxAntiLag.reachable_initialized (isAntiLagEnabled : Bool)
    (antiLagMode : AntiLagMode) (amdAntiLag : Bool) (sym : Nat) (ops : List AntiLagOp)
    (h : ((RtxAntiLag.construct isAntiLagEnabled antiLagMode amdAntiLag sym).1.run
      ops).m_initialized = true) :
    ((RtxAntiLag.construct isAntiLagEnabled antiLagMode amdAntiLag sym).1.run
      ops).m_enabled = true ∧
    ((RtxAntiLag.construct isAntiLagEnabled antiLagMode amdAntiLag sym).1.run
      ops).amdAntiLag = true ∧
    ((RtxAntiLag.construct isAntiLagEnabled antiLagMode amdAntiLag sym).1.run
      ops).m_vkAntiLagUpdateAMD ≠ 0 := by
  have hr := RtxAntiLag.run_fields ops
    (RtxAntiLag.construct isAntiLagEnabled antiLagMode amdAntiLag sym).1
  rw [hr.2.2.1] at h
  have hc := RtxAntiLag.construct_initialized isAntiLagEnabled antiLagMode amdAntiLag sym h
  rw [hr.1, hr.2.1, hr.2.2.2]
  exact hc

/-- C14: for every `RtxAntiLag` object, right after construction (`ops` empty) and
after any sequence of `updateMode`, `updateBeforeInput` and `updateBeforePresent`
calls, `antiLagInitialized()` being true implies that `antiLagEnabled()` is true, that
the device has the AMD Anti-Lag extension and that `m_vkAntiLagUpdateAMD` is not
null; and both flags are what they were when the constructor returned. -/
theorem antiLag_initialized_implies_enabled (isAntiLagEnabled : Bool)
    (antiLagMode : AntiLagMode) (amdAntiLag : Bool) (sym : Nat) (ops : List AntiLagOp) :
    (((RtxAntiLag.construct isAntiLagEnabled antiLagMode amdAntiLag sym).1.run
        ops).antiLagInitialized = true →
      ((RtxAntiLag.construct isAntiLagEnabled antiLagMode amdAntiLag sym).1.run
        ops).antiLagEnabled = true ∧
      ((RtxAntiLag.construct isAntiLagEnabled antiLagMode amdAntiLag sym).1.run
        ops).amdAntiLag = true ∧
      amdAntiLag = true ∧
      ((RtxAntiLag.construct isAntiLagEnabled antiLagMode amdAntiLag sym).1.run
        ops).m_vkAntiLagUpdateAMD ≠ 0) ∧
    ((RtxAntiLag.construct isAntiLagEnabled antiLagMode amdAntiLag sym).1.run
        ops).antiLagEnabled
      = (RtxAntiLag.construct isAntiLagEnabled antiLagMode amdAntiLag
        sym).1.antiLagEnabled ∧
    ((RtxAntiLag.construct isAntiLagEnabled antiLagMode amdAntiLag sym).1.run
        ops).antiLagInitialized
      = (RtxAntiLag.construct isAntiLagEnabled antiLagMode amdAntiLag
        sym).1.antiLagInitialized := by
  have hr := RtxAntiLag.run_fields ops
    (RtxAntiLag.construct isAntiLagEnabled antiLagMode amdAntiLag sym).1
  refine ⟨?_, hr.2.1, hr.2.2.1⟩
  intro h
  have hi := RtxAntiLag.reachable_initialized isAntiLagEnabled antiLagMode amdAntiLag
    sym ops h
  refine ⟨hi.1, hi.2.1, ?_, hi.2.2⟩
  have hx := hi.2.1
  rw [hr.1] at hx
  cases isAntiLagEnabled <;> cases amdAntiLag <;>
    simp_all [RtxAntiLag.construct, RtxAntiLag.antiLagEnabled]

/-- C19: construction never applies the configured mode.  For every value of the
enable option, the configured mode, the extension flag and the looked-up function
pointer, the current mode is Off when the constructor returns and the constructor
made no driver call: its `updateMode()` call runs while `m_initialized` is still
false and returns at the first check. -/
theorem construct_leaves_mode_off (isAntiLagEnabled : Bool) (antiLagMode : AntiLagMode)
    (amdAntiLag : Bool) (sym : Nat) :
    (RtxAntiLag.construct isAntiLagEnabled antiLagMode amdAntiLag sym).1.m_currentAntiLagMode
      = AntiLagMode.Off ∧
    (RtxAntiLag.construct isAntiLagEnabled antiLagMode amdAntiLag sym).2 = [] ∧
    (∀ a : RtxAntiLag, a.m_initialized = false →
      a.updateMode antiLagMode = (a, [])) :=
  ⟨(RtxAntiLag.construct_off isAntiLagEnabled antiLagMode amdAntiLag sym).1,
   (RtxAntiLag.construct_off isAntiLagEnabled antiLagMode amdAntiLag sym).2,
   fun a h => by simp [RtxAntiLag.updateMode, RtxAntiLag.antiLagInitialized, h]⟩

/-- C17: on an initialized object (one a constructor call and later method calls lead
to), after `updateMode` the current mode is the configured mode; when the configured
mode differs from the current one exactly one driver call is made, with the matching
driver mode, no FPS cap and no presentation info; when they are equal no call is made
and the object is unchanged; a second `updateMode` with the same configured mode
makes no call, so the two calls together make at most one; and on an uninitialized
object `updateMode` makes no call and changes nothing. -/
theorem updateMode_applies_configured_mode (isAntiLagEnabled : Bool)
    (antiLagMode : AntiLagMode) (amdAntiLag : Bool) (sym : Nat) (ops : List AntiLagOp)
    (newMode : AntiLagMode) (u : RtxAntiLag)
    (hinit : ((RtxAntiLag.construct isAntiLagEnabled antiLagMode amdAntiLag sym).1.run
      ops).antiLagInitialized = true)
    (hu : u.antiLagInitialized = false) :
    ((((RtxAntiLag.construct isAntiLagEnabled antiLagMode amdAntiLag sym).1.run
        ops).updateMode newMode).1.m_currentAntiLagMode = newMode) ∧
    (newMode ≠ ((RtxAntiLag.construct isAntiLagEnabled antiLagMode amdAntiLag sym).1.run
        ops).m_currentAntiLagMode →
      (((RtxAntiLag.construct isAntiLagEnabled antiLagMode amdAntiLag sym).1.run
        ops).updateMode newMode).2
        = [{ mode := specDriverMode newMode, maxFPS := 0, pPresentationInfo := none }]) ∧
    (newMode = ((RtxAntiLag.construct isAntiLagEnabled antiLagMode amdAntiLag sym).1.run
        ops).m_currentAntiLagMode →
      ((RtxAntiLag.construct isAntiLagEnabled antiLagMode amdAntiLag sym).1.run
        ops).updateMode newMode
        = ((RtxAntiLag.construct isAntiLagEnabled antiLagMode amdAntiLag sym).1.run
            ops, [])) ∧
    ((((RtxAntiLag.construct isAntiLagEnabled antiLagMode amdAntiLag sym).1.run
        ops).updateMode newMode).1.updateMode newMode
      = ((((RtxAntiLag.construct isAntiLagEnabled antiLagMode amdAntiLag sym).1.run
        ops).updateMode newMode).1, [])) ∧
    ((((RtxAntiLag.construct isAntiLagEnabled antiLagMode amdAntiLag sym).1.run
        ops).updateMode newMode).2
      ++ ((((RtxAntiLag.construct isAntiLagEnabled antiLagMode amdAntiLag sym).1.run
        ops).updateMode newMode).1.updateMode newMode).2).length ≤ 1 ∧
    u.updateMode newMode = (u, []) := by
  have hi := RtxAntiLag.reachable_initialized isAntiLagEnabled antiLagMode amdAntiLag
    sym ops hinit
  generalize (RtxAntiLag.construct isAntiLagEnabled antiLagMode amdAntiLag sym).1.run ops
    = a at hinit hi ⊢
  have hfn := hi.2.2
  simp only [RtxAntiLag.antiLagInitialized] at hinit hu
  refine ⟨?_, ?_, ?_, ?_, ?_, ?_⟩
  · by_cases hm : newMode = a.m_currentAntiLagMode
    · simp [RtxAntiLag.updateMode, RtxAntiLag.antiLagInitialized, hinit, hfn, hm]
    · simp [RtxAntiLag.updateMode, RtxAntiLag.antiLagInitialized, hinit, hfn, hm]
  · intro hm
    cases newMode <;>
      simp [RtxAntiLag.updateMode, RtxAntiLag.antiLagInitialized, hinit, hfn, hm,
        specDriverMode]
  · intro hm
    simp [RtxAntiLag.updateMode, RtxAntiLag.antiLagInitialized, hinit, hfn, hm]
  · by_cases hm : newMode = a.m_currentAntiLagMode
    · simp [RtxAntiLag.updateMode, RtxAntiLag.antiLagInitialized, hinit, hfn, hm]
    · simp [RtxAntiLag.updateMode, RtxAntiLag.antiLagInitialized, hinit, hfn, hm]
  · by_cases hm : newMode = a.m_currentAntiLagMode
    · simp [RtxAntiLag.updateMode, RtxAntiLag.antiLagInitialized, hinit, hfn, hm]
    · simp [RtxAntiLag.updateMode, RtxAntiLag.antiLagInitialized, hinit, hfn, hm]
  · simp [RtxAntiLag.updateMode, RtxAntiLag.antiLagInitialized, hu]

/-- Witness of C17: an object constructed with Anti-Lag enabled, the extension present
and the driver function at address 8, after one `updateMode` to On; the configured
mode then becomes DriverControl.  The uninitialized object is one constructed with
Anti-Lag disabled. -/
theorem updateMode_applies_configured_mode_witness :
    (((RtxAntiLag.construct true AntiLagMode.On true 8).1.run
        [AntiLagOp.updateMode AntiLagMode.On]).antiLagInitialized = true ∧
      (RtxAntiLag.construct false AntiLagMode.On true 8).1.antiLagInitialized = false) ∧
    ((((RtxAntiLag.construct true AntiLagMode.On true 8).1.run
        [AntiLagOp.updateMode AntiLagMode.On]).updateMode
          AntiLagMode.DriverControl).1.m_currentAntiLagMode = AntiLagMode.DriverControl) ∧
    (AntiLagMode.DriverControl ≠ ((RtxAntiLag.construct true AntiLagMode.On true 8).1.run
        [AntiLagOp.updateMode AntiLagMode.On]).m_currentAntiLagMode →
      (((RtxAntiLag.construct true AntiLagMode.On true 8).1.run
        [AntiLagOp.updateMode AntiLagMode.On]).updateMode AntiLagMode.DriverControl).2
        = [{ mode := specDriverMode AntiLagMode.DriverControl, maxFPS := 0,
             pPresentationInfo := none }]) :=
  ⟨⟨by decide, by decide⟩,
   (updateMode_applies_configured_mode true AntiLagMode.On true 8
     [AntiLagOp.updateMode AntiLagMode.On] AntiLagMode.DriverControl
     (RtxAntiLag.construct false AntiLagMode.On true 8).1 (by decide) (by decide)).1,
   (updateMode_applies_configured_mode true AntiLagMode.On true 8
     [AntiLagOp.updateMode AntiLagMode.On] AntiLagMode.DriverControl
     (RtxAntiLag.construct false AntiLagMode.On true 8).1 (by decide) (by decide)).2.1⟩

/-- C18: for every `RtxAntiLag` object (one a constructor call and later method calls
lead to) and every frame id, `updateBeforeInput` and `updateBeforePresent` return the
object as it is; they make no driver call when the object is not initialized or the
current mode is Off, and otherwise, DriverControl included, exactly one call with
mode ON and no FPS cap, which for `updateBeforePresent` carries the presentation info
with the present stage and `frameIndex` equal to the frame id, and for
`updateBeforeInput` carries none. -/
theorem updateBefore_calls (isAntiLagEnabled : Bool)
    (antiLagMode : AntiLagMode) (amdAntiLag : Bool) (sym : Nat) (ops : List AntiLagOp)
    (frameId : Nat) :
    ((RtxAntiLag.construct isAntiLagEnabled antiLagMode amdAntiLag sym).1.run
        ops).updateBeforeInput frameId
      = ((RtxAntiLag.construct isAntiLagEnabled antiLagMode amdAntiLag sym).1.run ops,
         if ((RtxAntiLag.construct isAntiLagEnabled antiLagMode amdAntiLag sym).1.run
              ops).antiLagInitialized = true ∧
            ((RtxAntiLag.construct isAntiLagEnabled antiLagMode amdAntiLag sym).1.run
              ops).m_currentAntiLagMode ≠ AntiLagMode.Off
         then [{ mode := VkAntiLagModeAMD.VK_ANTI_LAG_MODE_ON_AMD, maxFPS := 0,
                 pPresentationInfo := none }]
         else []) ∧
    ((RtxAntiLag.construct isAntiLagEnabled antiLagMode amdAntiLag sym).1.run
        ops).updateBeforePresent frameId
      = ((RtxAntiLag.construct isAntiLagEnabled antiLagMode amdAntiLag sym).1.run ops,
         if ((RtxAntiLag.construct isAntiLagEnabled antiLagMode amdAntiLag sym).1.run
              ops).antiLagInitialized = true ∧
            ((RtxAntiLag.construct isAntiLagEnabled antiLagMode amdAntiLag sym).1.run
              ops).m_currentAntiLagMode ≠ AntiLagMode.Off
         then [{ mode := VkAntiLagModeAMD.VK_ANTI_LAG_MODE_ON_AMD, maxFPS := 0,
                 pPresentationInfo :=
                   some { stage := VkAntiLagStageAMD.VK_ANTI_LAG_STAGE_PRESENT_AMD,
                          frameIndex := frameId } }]
         else []) := by
  have hi := RtxAntiLag.reachable_initialized isAntiLagEnabled antiLagMode amdAntiLag
    sym ops
  generalize (RtxAntiLag.construct isAntiLagEnabled antiLagMode amdAntiLag sym).1.run ops
    = a at hi ⊢
  by_cases hinit : a.m_initialized = true
  · have hfn := (hi hinit).2.2
    by_cases hm : a.m_currentAntiLagMode = AntiLagMode.Off
    · simp [RtxAntiLag.updateBeforeInput, RtxAntiLag.updateBeforePresent,
        RtxAntiLag.antiLagInitialized, hinit, hfn, hm]
    · simp [RtxAntiLag.updateBeforeInput, RtxAntiLag.updateBeforePresent,
        RtxAntiLag.antiLagInitialized, hinit, hfn, hm]
  · simp [RtxAntiLag.updateBeforeInput, RtxAntiLag.updateBeforePresent,
      RtxAntiLag.antiLagInitialized, hinit]

/-- An object in mode DriverControl: `updateBeforePresent` for frame 42 makes one call
with mode ON that carries the present stage and frame index 42. -/
theorem updateBeforePresent_example :
    ((RtxAntiLag.construct true AntiLagMode.Off true 8).1.run
        [AntiLagOp.updateMode AntiLagMode.DriverControl]).updateBeforePresent 42
      = ({ amdAntiLag := true, m_enabled := true, m_initialized := true,
           m_currentAntiLagMode := AntiLagMode.DriverControl,
           m_vkAntiLagUpdateAMD := 8 },
         [{ mode := VkAntiLagModeAMD.VK_ANTI_LAG_MODE_ON_AMD, maxFPS := 0,
            pPresentationInfo :=
              some { stage := VkAntiLagStageAMD.VK_ANTI_LAG_STAGE_PRESENT_AMD,
                     frameIndex := 42 } }]) := by
  decide

/-! ## Threads -/

theorem createPipeline_eq (E : Env) (m : DxvkPipelineManager) (key : PipelineKey) :
    m.createPipeline E key =
      if key.mandatoryAbsent = true then (none, m)
      else
        match m.findPipeline E key with
        | some pair => (some pair, m)
        | none => (some (m.emplacePipeline key).1, (m.emplacePipeline key).2) := by
  cases key with
  | compute k =>
    simp only [DxvkPipelineManager.createPipeline, DxvkPipelineManager.createComputePipeline,
      PipelineKey.mandatoryAbsent, DxvkPipelineManager.findPipeline,
      DxvkPipelineManager.emplacePipeline]
  | graphics k =>
    simp only [DxvkPipelineManager.createPipeline, DxvkPipelineManager.createGraphicsPipeline,
      PipelineKey.mandatoryAbsent, DxvkPipelineManager.findPipeline,
      DxvkPipelineManager.emplacePipeline]

theorem emplacePipeline_find (E : Env) (m : DxvkPipelineManager) (key : PipelineKey)
    (h : m.findPipeline E key = none) :
    (m.emplacePipeline key).2.findPipeline E key = some (m.emplacePipeline key).1 := by
  cases key with
  | compute k =>
    simp only [DxvkPipelineManager.findPipeline, DxvkPipelineManager.emplacePipeline,
      DxvkComputePipeline.construct] at h ⊢
    exact umapFind_append_of_none _ _ _ _ k h rfl ((keyEq_compute_iff k k).2 rfl)
  | graphics k =>
    simp only [DxvkPipelineManager.findPipeline, DxvkPipelineManager.emplacePipeline,
      DxvkGraphicsPipeline.construct] at h ⊢
    exact umapFind_append_of_none _ _ _ _ k h rfl ((keyEq_graphics_iff k k).2 rfl)

theorem Threads.init_inv (E : Env) (m : DxvkPipelineManager) (key : PipelineKey)
    (N : Nat) : Threads.Inv E m key N (Threads.init m) where
  bound := by intro t h; exact absurd rfl h
  holder := by intro t; simp [Threads.init]
  result := by intro t r h; simp [Threads.init] at h
  missed := by intro t h; simp [Threads.init] at h
  state := Or.inl ⟨rfl, rfl⟩

theorem update_forall {P : Nat → ThreadPc → Prop} (pc : Nat → ThreadPc) (t : Nat)
    (v : ThreadPc) (h : ∀ x, x ≠ t → P x (pc x)) (hv : P t v) :
    ∀ x, P x (Function.update pc t v x) := by
  intro x
  by_cases hx : x = t
  · subst hx; rw [Function.update_same]; exact hv
  · rw [Function.update_noteq hx]; exact h x hx

theorem Threads.step_inv (E : Env) (m : DxvkPipelineManager) (key : PipelineKey)
    (N : Nat) (s : Threads) (t : Nat) (hkey : key.mandatoryAbsent = false) (ht : t < N)
    (h : Threads.Inv E m key N s) : Threads.Inv E m key N (Threads.step E key s t) := by
  have hnot : ∀ x, x ≠ t → s.m_mutex = some t → s.pc x ≠ ThreadPc.locked ∧
      s.pc x ≠ ThreadPc.missed ∧ ∀ r, s.pc x ≠ ThreadPc.leaving r := by
    intro x hx hm
    have hx2 : ¬ s.m_mutex = some x := by
      rw [hm]; intro he; exact hx (Option.some.inj he).symm
    have := (h.holder x).not.1 hx2
    refine ⟨fun c => this (Or.inl c), fun c => this (Or.inr (Or.inl c)),
      fun r c => this (Or.inr (Or.inr ⟨r, c⟩))⟩
  cases hpc : s.pc t with
  | start =>
    have hs : Threads.step E key s t
        = { s with pc := Function.update s.pc t ThreadPc.waiting } := by
      simp [Threads.step, hpc, hkey]
    rw [hs]
    refine ⟨?_, ?_, ?_, ?_, h.state⟩
    · exact update_forall (P := fun x c => c ≠ ThreadPc.start → x < N) _ _ _
        (fun x _ => h.bound x) (fun _ => ht)
    · refine update_forall (P := fun x c => s.m_mutex = some x ↔
        (c = ThreadPc.locked ∨ c = ThreadPc.missed ∨ ∃ r, c = ThreadPc.leaving r)) _ _ _
        (fun x _ => h.holder x) ?_
      have := h.holder t
      rw [hpc] at this
      simpa using this
    · exact update_forall (P := fun _ c => ∀ r, (c = ThreadPc.leaving r ∨ c = ThreadPc.done r) →
        r = s.mgr.findPipeline E key ∧ r ≠ none) _ _ _
        (fun x _ => h.result x) (by intro r hr; simp at hr)
    · exact update_forall (P := fun _ c => c = ThreadPc.missed →
        s.mgr.findPipeline E key = none) _ _ _
        (fun x _ => h.missed x) (by intro hr; simp at hr)
  | waiting =>
    cases hm : s.m_mutex with
    | some owner =>
      have hs : Threads.step E key s t = s := by simp [Threads.step, hpc, hm]
      rw [hs]; exact h
    | none =>
      have hs : Threads.step E key s t
          = { s with m_mutex := some t, pc := Function.update s.pc t ThreadPc.locked } := by
        simp [Threads.step, hpc, hm]
      rw [hs]
      refine ⟨?_, ?_, ?_, ?_, h.state⟩
      · exact update_forall (P := fun x c => c ≠ ThreadPc.start → x < N) _ _ _
          (fun x _ => h.bound x) (fun _ => ht)
      · refine update_forall (P := fun x c => some t = some x ↔
          (c = ThreadPc.locked ∨ c = ThreadPc.missed ∨ ∃ r, c = ThreadPc.leaving r)) _ _ _
          ?_ (by simp)
        intro x hx
        have h1 := h.holder x
        rw [hm] at h1
        constructor
        · intro he; exact absurd (Option.some.inj he).symm hx
        · intro hc; exact absurd (h1.2 hc) (by simp)
      · exact update_forall (P := fun _ c => ∀ r, (c = ThreadPc.leaving r ∨ c = ThreadPc.done r) →
          r = s.mgr.findPipeline E key ∧ r ≠ none) _ _ _
          (fun x _ => h.result x) (by intro r hr; simp at hr)
      · exact update_forall (P := fun _ c => c = ThreadPc.missed →
          s.mgr.findPipeline E key = none) _ _ _
          (fun x _ => h.missed x) (by intro hr; simp at hr)
  | locked =>
    have hown : s.m_mutex = some t := (h.holder t).2 (Or.inl hpc)
    cases hf : s.mgr.findPipeline E key with
    | some p =>
      have hs : Threads.step E key s t
          = { s with pc := Function.update s.pc t (ThreadPc.leaving (some p)) } := by
        simp [Threads.step, hpc, hf]
      rw [hs]
      refine ⟨?_, ?_, ?_, ?_, h.state⟩
      · exact update_forall (P := fun x c => c ≠ ThreadPc.start → x < N) _ _ _
          (fun x _ => h.bound x) (fun _ => ht)
      · refine update_forall (P := fun x c => s.m_mutex = some x ↔
          (c = ThreadPc.locked ∨ c = ThreadPc.missed ∨ ∃ r, c = ThreadPc.leaving r)) _ _ _
          (fun x _ => h.holder x) ?_
        simp [hown]
      · refine update_forall (P := fun _ c => ∀ r, (c = ThreadPc.leaving r ∨ c = ThreadPc.done r) →
          r = s.mgr.findPipeline E key ∧ r ≠ none) _ _ _
          (fun x _ => h.result x) ?_
        intro r hr
        simp at hr
        subst hr
        simp [hf]
      · exact update_forall (P := fun _ c => c = ThreadPc.missed →
          s.mgr.findPipeline E key = none) _ _ _
          (fun x _ => h.missed x) (by intro hr; simp at hr)
    | none =>
      have hs : Threads.step E key s t
          = { s with pc := Function.update s.pc t ThreadPc.missed } := by
        simp [Threads.step, hpc, hf]
      rw [hs]
      refine ⟨?_, ?_, ?_, ?_, h.state⟩
      · exact update_forall (P := fun x c => c ≠ ThreadPc.start → x < N) _ _ _
          (fun x _ => h.bound x) (fun _ => ht)
      · refine update_forall (P := fun x c => s.m_mutex = some x ↔
          (c = ThreadPc.locked ∨ c = ThreadPc.missed ∨ ∃ r, c = ThreadPc.leaving r)) _ _ _
          (fun x _ => h.holder x) ?_
        simp [hown]
      · exact update_forall (P := fun _ c => ∀ r, (c = ThreadPc.leaving r ∨ c = ThreadPc.done r) →
          r = s.mgr.findPipeline E key ∧ r ≠ none) _ _ _
          (fun x _ => h.result x) (by intro r hr; simp at hr)
      · exact update_forall (P := fun _ c => c = ThreadPc.missed →
          s.mgr.findPipeline E key = none) _ _ _
          (fun x _ => h.missed x) (fun _ => hf)
  | missed =>
    have hown : s.m_mutex = some t := (h.holder t).2 (Or.inr (Or.inl hpc))
    have hf : s.mgr.findPipeline E key = none := h.missed t hpc
    have hmgr : s.mgr = m ∧ s.constructed = [] := by
      rcases h.state with h1 | ⟨h1, h2, _⟩
      · exact h1
      · rw [h2, emplacePipeline_find E m key h1] at hf
        cases hf
    have hs : Threads.step E key s t
        = { s with
            mgr := (s.mgr.emplacePipeline key).2
            pc := Function.update s.pc t
              (ThreadPc.leaving (some (s.mgr.emplacePipeline key).1))
            constructed := s.constructed ++ [t] } := by
      simp [Threads.step, hpc]
    have hfind := emplacePipeline_find E s.mgr key hf
    rw [hs]
    refine ⟨?_, ?_, ?_, ?_, ?_⟩
    · exact update_forall (P := fun x c => c ≠ ThreadPc.start → x < N) _ _ _
        (fun x _ => h.bound x) (fun _ => ht)
    · refine update_forall (P := fun x c => s.m_mutex = some x ↔
        (c = ThreadPc.locked ∨ c = ThreadPc.missed ∨ ∃ r, c = ThreadPc.leaving r)) _ _ _
        (fun x _ => h.holder x) ?_
      simp [hown]
    · refine update_forall (P := fun _ c => ∀ r, (c = ThreadPc.leaving r ∨ c = ThreadPc.done r) →
        r = (s.mgr.emplacePipeline key).2.findPipeline E key ∧ r ≠ none) _ _ _ ?_ ?_
      · intro x hx r hr
        have := (h.result x r hr)
        rw [hf] at this
        exact absurd this.1 this.2
      · intro r hr
        simp at hr
        subst hr
        simp [hfind]
    · refine update_forall (P := fun _ c => c = ThreadPc.missed →
        (s.mgr.emplacePipeline key).2.findPipeline E key = none) _ _ _ ?_
        (by intro hr; simp at hr)
      intro x hx hc
      exact absurd hc (hnot x hx hown).2.1
    · right
      rw [hmgr.1] at hf
      exact ⟨hf, by rw [hmgr.1], t, ht, by simp [hmgr.2]⟩
  | leaving r0 =>
    have hown : s.m_mutex = some t := (h.holder t).2 (Or.inr (Or.inr ⟨r0, hpc⟩))
    have hs : Threads.step E key s t
        = { s with m_mutex := none, pc := Function.update s.pc t (ThreadPc.done r0) } := by
      simp [Threads.step, hpc]
    rw [hs]
    refine ⟨?_, ?_, ?_, ?_, h.state⟩
    · exact update_forall (P := fun x c => c ≠ ThreadPc.start → x < N) _ _ _
        (fun x _ => h.bound x) (fun _ => ht)
    · refine update_forall (P := fun x c => none = some x ↔
        (c = ThreadPc.locked ∨ c = ThreadPc.missed ∨ ∃ r, c = ThreadPc.leaving r)) _ _ _
        ?_ (by simp)
      intro x hx
      have hn := hnot x hx hown
      constructor
      · intro he; cases he
      · rintro (hc | hc | ⟨r, hc⟩)
        · exact absurd hc hn.1
        · exact absurd hc hn.2.1
        · exact absurd hc (hn.2.2 r)
    · refine update_forall (P := fun _ c => ∀ r, (c = ThreadPc.leaving r ∨ c = ThreadPc.done r) →
        r = s.mgr.findPipeline E key ∧ r ≠ none) _ _ _
        (fun x _ => h.result x) ?_
      intro r hr
      simp at hr
      subst hr
      exact h.result t r0 (Or.inl hpc)
    · exact update_forall (P := fun _ c => c = ThreadPc.missed →
        s.mgr.findPipeline E key = none) _ _ _
        (fun x _ => h.missed x) (by intro hr; simp at hr)
  | done r0 =>
    have hs : Threads.step E key s t = s := by simp [Threads.step, hpc]
    rw [hs]; exact h

theorem Threads.run_inv (E : Env) (m : DxvkPipelineManager) (key : PipelineKey)
    (N : Nat) (hkey : key.mandatoryAbsent = false) (schedule : List Nat) :
    ∀ s : Threads, Threads.Inv E m key N s → (∀ t ∈ schedule, t < N) →
      Threads.Inv E m key N (s.run E key schedule) := by
  induction schedule with
  | nil => intro s h _; exact h
  | cons t ts ih =>
    intro s h hs
    have h1 := Threads.step_inv E m key N s t hkey (hs t (List.mem_cons_self _ _)) h
    have h2 := ih (Threads.step E key s t) h1
      (fun x hx => hs x (List.mem_cons_of_mem _ hx))
    simpa [Threads.run] using h2

/-- When a node already holds the key, threads that have all returned received the
pointer to that node, and none of them ran a constructor. -/
theorem concurrent_create_existing (E : Env) (m : DxvkPipelineManager)
    (key : PipelineKey) (N : Nat) (schedule : List Nat) (p0 : Nat)
    (hkey : key.mandatoryAbsent = false)
    (hfound : m.findPipeline E key = some p0)
    (hsched : ∀ t ∈ schedule, t < N)
    (hdone : ∀ t, t < N → ∃ r, ((Threads.init m).run E key schedule).pc t
      = ThreadPc.done r) :
    ((Threads.init m).run E key schedule).constructed = [] ∧
    ((Threads.init m).run E key schedule).mgr = m ∧
    ∀ t, t < N → ((Threads.init m).run E key schedule).pc t = ThreadPc.done (some p0) := by
  have h := Threads.run_inv E m key N hkey schedule _ (Threads.init_inv E m key N) hsched
  have hst : ((Threads.init m).run E key schedule).mgr = m ∧
      ((Threads.init m).run E key schedule).constructed = [] := by
    rcases h.state with h1 | ⟨h1, _, _⟩
    · exact h1
    · rw [hfound] at h1; cases h1
  refine ⟨hst.2, hst.1, ?_⟩
  intro t ht
  obtain ⟨r, hr⟩ := hdone t ht
  have := (h.result t r (Or.inr hr)).1
  rw [hst.1, hfound] at this
  rw [hr, this]

/-- In every state a schedule leads to, unless all `N` threads have returned some
thread below `N` can take a step that moves it on: the threads never deadlock. -/
theorem concurrent_create_progress (E : Env) (m : DxvkPipelineManager)
    (key : PipelineKey) (N : Nat) (schedule : List Nat) (t : Nat)
    (hkey : key.mandatoryAbsent = false)
    (hsched : ∀ t ∈ schedule, t < N) (ht : t < N)
    (hnot : ∀ r, ((Threads.init m).run E key schedule).pc t ≠ ThreadPc.done r) :
    ∃ x, x < N ∧
      (Threads.step E key ((Threads.init m).run E key schedule) x).pc x
        ≠ ((Threads.init m).run E key schedule).pc x := by
  have h := Threads.run_inv E m key N hkey schedule _ (Threads.init_inv E m key N) hsched
  generalize (Threads.init m).run E key schedule = s at h hnot ⊢
  have hmove : ∀ x, (s.pc x = ThreadPc.locked ∨ s.pc x = ThreadPc.missed ∨
      ∃ r, s.pc x = ThreadPc.leaving r) → (Threads.step E key s x).pc x ≠ s.pc x := by
    rintro x (hc | hc | ⟨r, hc⟩)
    · cases hf : s.mgr.findPipeline E key <;> simp [Threads.step, hc, hf]
    · simp [Threads.step, hc]
    · simp [Threads.step, hc]
  cases hm : s.m_mutex with
  | some o =>
    have ho := (h.holder o).1 hm
    refine ⟨o, h.bound o ?_, hmove o ho⟩
    rcases ho with hc | hc | ⟨r, hc⟩ <;> simp [hc]
  | none =>
    refine ⟨t, ht, ?_⟩
    cases hpc : s.pc t with
    | start => simp [Threads.step, hpc, hkey]
    | waiting => simp [Threads.step, hpc, hm]
    | locked =>
      have := (h.holder t).2 (Or.inl hpc)
      rw [hm] at this; cases this
    | missed =>
      have := (h.holder t).2 (Or.inr (Or.inl hpc))
      rw [hm] at this; cases this
    | leaving r =>
      have := (h.holder t).2 (Or.inr (Or.inr ⟨r, hpc⟩))
      rw [hm] at this; cases this
    | done r => exact absurd hpc (hnot r)

theorem Threads.run_alone (E : Env) (key : PipelineKey) (s : Threads) (t : Nat)
    (hm : s.m_mutex = none) (hpc : s.pc t = ThreadPc.start) :
    (s.run E key [t, t, t, t, t]).m_mutex = none ∧
    (∃ r, (s.run E key [t, t, t, t, t]).pc t = ThreadPc.done r) ∧
    ∀ x, x ≠ t → (s.run E key [t, t, t, t, t]).pc x = s.pc x := by
  cases hk : key.mandatoryAbsent with
  | true =>
    simp [Threads.run, Threads.step, hpc, hm, hk]
    intro x hx
    simp [Function.update_noteq hx]
  | false =>
    cases hf : s.mgr.findPipeline E key with
    | some p =>
      simp [Threads.run, Threads.step, hpc, hm, hk, hf]
      intro x hx
      simp [Function.update_noteq hx]
    | none =>
      simp [Threads.run, Threads.step, hpc, hm, hk, hf]
      intro x hx
      simp [Function.update_noteq hx]

/-- The sequential schedule names only threads below `N` and lets each of them
return: schedules in which all `N` threads return exist for every `N`. -/
theorem sequentialSchedule_completes (E : Env) (m : DxvkPipelineManager)
    (key : PipelineKey) (N : Nat) :
    (∀ t ∈ sequentialSchedule N, t < N) ∧
    ((Threads.init m).run E key (sequentialSchedule N)).m_mutex = none ∧
    (∀ t, t < N → ∃ r, ((Threads.init m).run E key (sequentialSchedule N)).pc t
      = ThreadPc.done r) ∧
    (∀ t, N ≤ t → ((Threads.init m).run E key (sequentialSchedule N)).pc t
      = ThreadPc.start) := by
  induction N with
  | zero =>
    refine ⟨by simp [sequentialSchedule], rfl, ?_, fun t _ => rfl⟩
    intro t ht
    exact absurd ht (Nat.not_lt_zero t)
  | succ n ih =>
    obtain ⟨h1, h2, h3, h4⟩ := ih
    have hrun : (Threads.init m).run E key (sequentialSchedule (n + 1))
        = ((Threads.init m).run E key (sequentialSchedule n)).run E key [n, n, n, n, n] := by
      simp only [sequentialSchedule, Threads.run, List.foldl_append]
    have ha := Threads.run_alone E key _ n h2 (h4 n (Nat.le_refl n))
    rw [hrun]
    refine ⟨?_, ha.1, ?_, ?_⟩
    · intro t ht
      simp only [sequentialSchedule, List.mem_append] at ht
      rcases ht with ht | ht
      · exact Nat.lt_succ_of_lt (h1 t ht)
      · have : t = n := by simpa using ht
        omega
    · intro t ht
      by_cases htn : t = n
      · subst htn; exact ha.2.1
      · rw [ha.2.2 t htn]
        exact h3 t (by omega)
    · intro t ht
      rw [ha.2.2 t (by omega)]
      exact h4 t (by omega)

/-- C13: `N` threads call the create operation of one pipeline kind with the same key,
whose mandatory shader is present and for which the manager holds no pipeline yet.
Under every schedule of their steps in which all `N` return, exactly one thread ran
the pipeline constructor, all `N` returned the same non-null pointer, and pointer and
manager are what a single create call on the starting manager gives: between taking
and releasing `m_mutex` no other thread enters the lookup-or-insert. -/
theorem concurrent_create_constructs_once (E : Env) (m : DxvkPipelineManager)
    (key : PipelineKey) (N : Nat) (schedule : List Nat)
    (hN : 0 < N) (hkey : key.mandatoryAbsent = false)
    (hfresh : m.findPipeline E key = none)
    (hsched : ∀ t ∈ schedule, t < N)
    (hdone : ∀ t, t < N → ∃ r, ((Threads.init m).run E key schedule).pc t
      = ThreadPc.done r) :
    ∃ p t0, t0 < N ∧
      ((Threads.init m).run E key schedule).constructed = [t0] ∧
      (∀ t, t < N → ((Threads.init m).run E key schedule).pc t = ThreadPc.done (some p)) ∧
      ((Threads.init m).run E key schedule).mgr.findPipeline E key = some p ∧
      m.createPipeline E key = (some p, ((Threads.init m).run E key schedule).mgr) := by
  have h := Threads.run_inv E m key N hkey schedule _ (Threads.init_inv E m key N) hsched
  generalize (Threads.init m).run E key schedule = s at h hdone ⊢
  obtain ⟨r0, hr0⟩ := hdone 0 hN
  have h0 := h.result 0 r0 (Or.inr hr0)
  rcases h.state with ⟨h1, _⟩ | ⟨_, h2, t0, ht0, hc⟩
  · rw [h1, hfresh] at h0
    exact absurd h0.1 h0.2
  · have hfind := emplacePipeline_find E m key hfresh
    refine ⟨(m.emplacePipeline key).1, t0, ht0, hc, ?_, ?_, ?_⟩
    · intro t ht
      obtain ⟨r, hr⟩ := hdone t ht
      have := (h.result t r (Or.inr hr)).1
      rw [h2, hfind] at this
      rw [hr, this]
    · rw [h2, hfind]
    · rw [createPipeline_eq, h2]
      simp [hkey, hfresh]

/-- Witness of C13: three threads request the compute key of the shader at 4096 on the
example manager; their steps interleave, thread 1 takes the mutex first. -/
theorem concurrent_create_constructs_once_witness :
    (exampleManager.findPipeline exampleEnv (PipelineKey.compute ⟨⟨4096⟩⟩) = none ∧
      ∀ t, t < 3 → ((Threads.init exampleManager).run exampleEnv
        (PipelineKey.compute ⟨⟨4096⟩⟩)
        [0, 1, 2, 1, 0, 2, 1, 1, 1, 0, 0, 0, 2, 2, 2]).pc t = ThreadPc.done (some 0)) ∧
    ∃ p t0, t0 < 3 ∧
      ((Threads.init exampleManager).run exampleEnv (PipelineKey.compute ⟨⟨4096⟩⟩)
        [0, 1, 2, 1, 0, 2, 1, 1, 1, 0, 0, 0, 2, 2, 2]).constructed = [t0] ∧
      (∀ t, t < 3 → ((Threads.init exampleManager).run exampleEnv
        (PipelineKey.compute ⟨⟨4096⟩⟩)
        [0, 1, 2, 1, 0, 2, 1, 1, 1, 0, 0, 0, 2, 2, 2]).pc t = ThreadPc.done (some p)) ∧
      ((Threads.init exampleManager).run exampleEnv (PipelineKey.compute ⟨⟨4096⟩⟩)
        [0, 1, 2, 1, 0, 2, 1, 1, 1, 0, 0, 0, 2, 2, 2]).mgr.findPipeline exampleEnv
          (PipelineKey.compute ⟨⟨4096⟩⟩) = some p ∧
      exampleManager.createPipeline exampleEnv (PipelineKey.compute ⟨⟨4096⟩⟩)
        = (some p, ((Threads.init exampleManager).run exampleEnv
          (PipelineKey.compute ⟨⟨4096⟩⟩)
          [0, 1, 2, 1, 0, 2, 1, 1, 1, 0, 0, 0, 2, 2, 2]).mgr) :=
  ⟨⟨by decide, by decide⟩,
   concurrent_create_constructs_once exampleEnv exampleManager
     (PipelineKey.compute ⟨⟨4096⟩⟩) 3 [0, 1, 2, 1, 0, 2, 1, 1, 1, 0, 0, 0, 2, 2, 2]
     (by decide) (by decide) (by decide) (by decide)
     (fun t ht => ⟨some 0, (by decide : ∀ t, t < 3 →
       ((Threads.init exampleManager).run exampleEnv (PipelineKey.compute ⟨⟨4096⟩⟩)
         [0, 1, 2, 1, 0, 2, 1, 1, 1, 0, 0, 0, 2, 2, 2]).pc t = ThreadPc.done (some 0))
       t ht⟩)⟩

end dxvk
